import Mathlib

/-!
# exynos-gs201-reboot.c : reboot-mode resolution, persistence, power-off guard, probe

A shallow embedding of `src/exynos-gs201-reboot.c`.

* The driver's file-scope variables (`pmureg`, `reboot_cmd_offset`, `pmu_alive_base`, ...)
  are the record `Globals`, passed explicitly.
* Every call the driver makes into the rest of the kernel (`set_priv_reg`, `regmap_write`,
  `gbms_storage_write`, `pmic_read_pwrkey_status`, `mdelay`, the `pr_*` / `dev_*` log calls,
  notifier registration) is recorded, in program order, in a trace of `Call`s.
* What those calls return is not decided by this file: it is read from an oracle (`Env` for
  the reboot path, `ProbeEnv` for `exynos_reboot_probe`), over which the theorems quantify.
* The `while (1)` loop of `exynos_reboot_handler` is run for at most `fuel` iterations;
  the handler yields `none` as return value while the loop has not been left.
-/

namespace ExynosReboot

/-! ## Constants and macros -/

/-- Line 33: `#define EXYNOS_PMU_SYSIP_DAT0 (0x0810)`. -/
def EXYNOS_PMU_SYSIP_DAT0 : Nat := 0x0810

/-- Linux `BIT(nr)`, that is `(1UL << (nr))`. -/
def BIT (nr : Nat) : Nat := 1 <<< nr

/-- Line 35: `#define BMS_RSBM_VALID BIT(31)`. -/
def BMS_RSBM_VALID : Nat := BIT 31

/-- Linux `U32_MAX`, that is `((u32)~0U)`. -/
def U32_MAX : Nat := 2 ^ 32 - 1

/-- Linux `SYS_POWER_OFF` (include/linux/reboot.h). -/
def SYS_POWER_OFF : Nat := 0x0003

/-- Linux `SYS_RESTART`, the same value as `SYS_DOWN` (include/linux/reboot.h). -/
def SYS_RESTART : Nat := 0x0001

/-- Linux `SYS_HALT` (include/linux/reboot.h). -/
def SYS_HALT : Nat := 0x0002

/-- Linux `NOTIFY_DONE` (include/linux/notifier.h). -/
def NOTIFY_DONE : Int := 0x0000

/-- Linux `EINVAL` (errno-base.h). -/
def EINVAL : Int := 22

/-- Linux `ENOMEM` (errno-base.h). -/
def ENOMEM : Int := 12

/-- Width of `phys_addr_t` on the arm64 target of this driver. -/
def PHYS_ADDR_BITS : Nat := 64

/-- Lines 44-56: `enum pon_reboot_mode`, each enumerator with its value. -/
def REBOOT_MODE_NORMAL : Nat := 0x00
/-- See `REBOOT_MODE_NORMAL`. -/
def REBOOT_MODE_CHARGE : Nat := 0x0A
/-- See `REBOOT_MODE_NORMAL`. -/
def REBOOT_MODE_DMVERITY_CORRUPTED : Nat := 0x50
/-- See `REBOOT_MODE_NORMAL`. -/
def REBOOT_MODE_SHUTDOWN_THERMAL : Nat := 0x51
/-- See `REBOOT_MODE_NORMAL`. -/
def REBOOT_MODE_RESCUE : Nat := 0xF9
/-- See `REBOOT_MODE_NORMAL`. -/
def REBOOT_MODE_FASTBOOT : Nat := 0xFA
/-- See `REBOOT_MODE_NORMAL`. -/
def REBOOT_MODE_BOOTLOADER : Nat := 0xFC
/-- See `REBOOT_MODE_NORMAL`. -/
def REBOOT_MODE_FACTORY : Nat := 0xFD
/-- See `REBOOT_MODE_NORMAL`. -/
def REBOOT_MODE_RECOVERY : Nat := 0xFF

/-- All enumerators of `enum pon_reboot_mode`, in declaration order. -/
def pon_reboot_mode : List Nat :=
  [REBOOT_MODE_NORMAL, REBOOT_MODE_CHARGE, REBOOT_MODE_DMVERITY_CORRUPTED,
   REBOOT_MODE_SHUTDOWN_THERMAL, REBOOT_MODE_RESCUE, REBOOT_MODE_FASTBOOT,
   REBOOT_MODE_BOOTLOADER, REBOOT_MODE_FACTORY, REBOOT_MODE_RECOVERY]

/-! ## State, calls and oracles -/

/-- Lines 37-42: the file-scope variables of the driver. -/
structure Globals where
  pmureg : Nat
  warm_reboot_offset : Nat
  warm_reboot_trigger : Nat
  cold_reboot_offset : Nat
  cold_reboot_trigger : Nat
  reboot_cmd_offset : Nat
  shutdown_offset : Nat
  shutdown_trigger : Nat
  pmu_alive_base : Nat
  deriving DecidableEq, Repr

/-- The storage tags the driver names (google_bms.h); it uses one. -/
inductive gbms_tag where
  | GBMS_TAG_RSBM
  deriving DecidableEq, Repr

/-- The two notifier blocks of the driver (lines 140-143 and 156-159). -/
inductive notifier_block where
  | exynos_reboot_nb
  | exynos_restart_nb
  deriving DecidableEq, Repr

/-- The log lines of the driver, named after their text; arguments other than
the reboot command are left out. -/
inductive LogLine where
  /-- Line 67: "failed to set addr ... via set_priv_reg, using regmap". -/
  | priv_reg_failed_using_regmap
  /-- Line 75: "failed to write gbms storage". -/
  | gbms_storage_failed (tag : gbms_tag) (ret : Int)
  /-- Line 84: "Reboot command: ...". -/
  | reboot_command (cmd : String)
  /-- Line 108: "Unknown reboot command: ...". -/
  | unknown_reboot_command (cmd : String)
  /-- Line 125: "ready to do power off." -/
  | ready_to_power_off
  /-- Line 132: "PWR Key is not released." -/
  | pwr_key_not_released
  /-- Line 171. -/
  | fail_to_get_regmap
  /-- Line 177. -/
  | syscon_node_not_found
  /-- Line 182. -/
  | failed_to_get_syscon_base
  /-- Lines 189, 194, 199, 204: a required property could not be read. -/
  | failed_to_find_property (name : String)
  /-- Line 212. -/
  | reboot_offset_using_default
  /-- Line 218. -/
  | cannot_register_reboot_handler (err : Int)
  /-- Line 224. -/
  | cannot_register_restart_handler (err : Int)
  /-- Line 229. -/
  | register_restart_handler_successfully
  deriving DecidableEq, Repr

/-- One call from the driver into the rest of the kernel. -/
inductive Call where
  | set_priv_reg (reg : Nat) (val : Nat)
  | regmap_write (map : Nat) (reg : Nat) (val : Nat)
  | gbms_storage_write (tag : gbms_tag) (data : Nat) (count : Nat)
  | pmic_read_pwrkey_status
  | mdelay (msecs : Nat)
  | pr_info (line : LogLine)
  | pr_err (line : LogLine)
  | dev_info (line : LogLine)
  | dev_err (line : LogLine)
  | register_reboot_notifier (nb : notifier_block)
  | unregister_reboot_notifier (nb : notifier_block)
  | register_restart_handler (nb : notifier_block)
  deriving DecidableEq, Repr

/-- A write to the mode-code register: the privileged one or the regmap fallback. -/
def Call.isRegisterWrite : Call → Bool
  | .set_priv_reg _ _ => true
  | .regmap_write _ _ _ => true
  | _ => false

/-- A write to the long-term storage. -/
def Call.isStorageWrite : Call → Bool
  | .gbms_storage_write _ _ _ => true
  | _ => false

/-- Any persisting write: register or storage. -/
def Call.isWrite (c : Call) : Bool := c.isRegisterWrite || c.isStorageWrite

/-- A power-key poll. -/
def Call.isPoll : Call → Bool
  | .pmic_read_pwrkey_status => true
  | _ => false

/-- A delay. -/
def Call.isDelay : Call → Bool
  | .mdelay _ => true
  | _ => false

/-- What the collaborators of the reboot path answer. `set_priv_reg`, `regmap_write` and
`gbms_storage_write` give their `int` result for the given arguments (the driver does not
look at the result of `regmap_write`); `pmic_read_pwrkey_status k` is the result of poll
number `k` (counting from 0) of one handler run, non-zero meaning that the power key is
asserted. -/
structure Env where
  set_priv_reg : Nat → Nat → Int
  regmap_write : Nat → Nat → Nat → Int
  gbms_storage_write : gbms_tag → Nat → Nat → Int
  pmic_read_pwrkey_status : Nat → Int

/-! ## libc -/

/-- The comparison loop of `strcmp` over the characters before the terminating NUL; only the
sign of the result is fixed by C, so the result is -1, 0 or 1. -/
def strcmp_chars : List Char → List Char → Int
  | [], [] => 0
  | [], _ :: _ => -1
  | _ :: _, [] => 1
  | a :: as, b :: bs => if a = b then strcmp_chars as bs else if a < b then -1 else 1

/-- C `strcmp`; a C string is modelled by its contents (the characters before the NUL). -/
def strcmp (s t : String) : Int := strcmp_chars s.data t.data

/-! ## The reboot path -/

/-- Line 61, the local `reboot_cmd_addr` of `exynos_reboot_mode_set`:
`pmu_alive_base + reboot_cmd_offset` in `phys_addr_t`. -/
def reboot_cmd_addr (g : Globals) : Nat :=
  (g.pmu_alive_base + g.reboot_cmd_offset) % 2 ^ PHYS_ADDR_BITS

/-- Lines 58-77, `exynos_reboot_mode_set(u32 val)`: the calls it makes, in order. -/
def exynos_reboot_mode_set (e : Env) (g : Globals) (val : Nat) : List Call :=
  let reboot_cmd_addr := reboot_cmd_addr g
  let ret := e.set_priv_reg reboot_cmd_addr val
  let primary : List Call :=
    if ret ≠ 0 then
      [Call.set_priv_reg reboot_cmd_addr val,
       Call.pr_info LogLine.priv_reg_failed_using_regmap,
       Call.regmap_write g.pmureg g.reboot_cmd_offset val]
    else
      [Call.set_priv_reg reboot_cmd_addr val]
  let reboot_mode := (val ||| BMS_RSBM_VALID) % 2 ^ 32
  let ret := e.gbms_storage_write gbms_tag.GBMS_TAG_RSBM reboot_mode 4
  primary ++ [Call.gbms_storage_write gbms_tag.GBMS_TAG_RSBM reboot_mode 4] ++
    (if ret < 0 then [Call.pr_err (LogLine.gbms_storage_failed gbms_tag.GBMS_TAG_RSBM ret)]
     else [])

/-- Lines 82-108 of `exynos_reboot_parse`: the local `value` after the `strcmp` chain,
together with the log line of the final `else`. -/
def exynos_reboot_parse_value (cmd : String) : Nat × List Call :=
  if strcmp cmd "charge" = 0 then (REBOOT_MODE_CHARGE, [])
  else if strcmp cmd "bootloader" = 0 then (REBOOT_MODE_BOOTLOADER, [])
  else if strcmp cmd "fastboot" = 0 then (REBOOT_MODE_FASTBOOT, [])
  else if strcmp cmd "recovery" = 0 then (REBOOT_MODE_RECOVERY, [])
  else if strcmp cmd "dm-verity device corrupted" = 0 then (REBOOT_MODE_DMVERITY_CORRUPTED, [])
  else if strcmp cmd "rescue" = 0 then (REBOOT_MODE_RESCUE, [])
  else if strcmp cmd "shutdown-thermal" = 0 then (REBOOT_MODE_SHUTDOWN_THERMAL, [])
  else if strcmp cmd "from_fastboot" = 0 ∨
          strcmp cmd "shell" = 0 ∨
          strcmp cmd "userrequested" = 0 ∨
          strcmp cmd "userrequested,fastboot" = 0 ∨
          strcmp cmd "userrequested,recovery" = 0 ∨
          strcmp cmd "userrequested,recovery,ui" = 0 then (REBOOT_MODE_NORMAL, [])
  else (U32_MAX, [Call.pr_err (LogLine.unknown_reboot_command cmd)])

/-- Lines 79-113, `exynos_reboot_parse(const char *cmd)`; `none` is the NULL pointer. -/
def exynos_reboot_parse (e : Env) (g : Globals) (cmd : Option String) : List Call :=
  match cmd with
  | none => []
  | some cmd =>
    let r := exynos_reboot_parse_value cmd
    [Call.pr_info (LogLine.reboot_command cmd)] ++ r.2 ++
      (if r.1 ≠ U32_MAX then exynos_reboot_mode_set e g r.1 else [])

/-- Lines 122-135, the `while (1)` loop of `exynos_reboot_handler`, run for at most `fuel`
iterations, `k` polls having been made before. The flag tells whether the loop was left
through `break`. -/
def exynos_reboot_handler_loop (e : Env) : Nat → Nat → Bool × List Call
  | 0, _ => (false, [])
  | fuel + 1, k =>
    if e.pmic_read_pwrkey_status k = 0 then
      (true, [Call.pmic_read_pwrkey_status, Call.pr_info LogLine.ready_to_power_off])
    else
      let r := exynos_reboot_handler_loop e fuel (k + 1)
      (r.1, [Call.pmic_read_pwrkey_status, Call.pr_info LogLine.pwr_key_not_released,
             Call.mdelay 1000] ++ r.2)

/-- Lines 115-138, `exynos_reboot_handler(nb, mode, cmd)` (`nb` is not used by the body):
the value returned, `none` while the loop is still running when the fuel ends, and the
calls made so far. -/
def exynos_reboot_handler (e : Env) (g : Globals) (mode : Nat) (cmd : Option String)
    (fuel : Nat) : Option Int × List Call :=
  let t := exynos_reboot_parse e g cmd
  if mode ≠ SYS_POWER_OFF then (some NOTIFY_DONE, t)
  else
    let r := exynos_reboot_handler_loop e fuel 0
    (if r.1 then some NOTIFY_DONE else none, t ++ r.2)

/-! ## Setup -/

/-- Linux `MAX_ERRNO` (include/linux/err.h). -/
def MAX_ERRNO : Nat := 4095

/-- Linux `IS_ERR(ptr)`: `(unsigned long)ptr >= (unsigned long)-MAX_ERRNO`, pointers being
64 bits wide. -/
def IS_ERR (ptr : Fin (2 ^ 64)) : Bool := decide (2 ^ 64 - MAX_ERRNO ≤ ptr.val)

/-- Linux `PTR_ERR(ptr)`: `(long)ptr`. -/
def PTR_ERR (ptr : Fin (2 ^ 64)) : Int :=
  if 2 ^ 63 ≤ ptr.val then (ptr.val : Int) - 2 ^ 64 else (ptr.val : Int)

/-- The conversion of a `long` to the `int` that `exynos_reboot_probe` returns. -/
def int_of_long (x : Int) : Int := (x + 2 ^ 31) % 2 ^ 32 - 2 ^ 31

/-- What the collaborators of `exynos_reboot_probe` answer: the pointer returned by
`syscon_regmap_lookup_by_phandle` and by `of_parse_phandle` (0 is NULL), the result of
`of_address_to_resource` with the `res.start` it fills in, for each property name the result
of `of_property_read_u32` with the value it stores when the result is not negative, and the
results of the two registrations. -/
structure ProbeEnv where
  syscon_regmap_lookup_by_phandle : Fin (2 ^ 64)
  of_parse_phandle : Fin (2 ^ 64)
  of_address_to_resource : Int × Nat
  of_property_read_u32 : String → Int × Nat
  register_reboot_notifier : Int
  register_restart_handler : Int

/-- Whether each of the driver's two notifier blocks is on its kernel chain. -/
structure Notifiers where
  reboot_nb_registered : Bool
  restart_nb_registered : Bool
  deriving DecidableEq, Repr

/-- What a run of `exynos_reboot_probe` leaves: its return value, the file-scope variables,
the registrations, and the calls made. -/
structure ProbeResult where
  ret : Int
  g : Globals
  n : Notifiers
  trace : List Call
  deriving DecidableEq, Repr

/-- Lines 161-232, `exynos_reboot_probe`. The locals named after the file-scope variables
hold the values assigned to them so far; each return lists the variables assigned by then.
A registration puts the block on its chain exactly when it returns 0;
`unregister_reboot_notifier` takes it off. -/
def exynos_reboot_probe (p : ProbeEnv) (g : Globals) (n : Notifiers) : ProbeResult :=
  let pmureg := p.syscon_regmap_lookup_by_phandle
  if IS_ERR pmureg then
    ⟨int_of_long (PTR_ERR pmureg), { g with pmureg := pmureg.val }, n,
      [Call.dev_err LogLine.fail_to_get_regmap]⟩
  else
  let syscon_np := p.of_parse_phandle
  if syscon_np.val = 0 then
    ⟨-EINVAL, { g with pmureg := pmureg.val }, n, [Call.dev_err LogLine.syscon_node_not_found]⟩
  else if p.of_address_to_resource.1 ≠ 0 then
    ⟨-ENOMEM, { g with pmureg := pmureg.val }, n,
      [Call.dev_err LogLine.failed_to_get_syscon_base]⟩
  else
  let pmu_alive_base := p.of_address_to_resource.2
  if (p.of_property_read_u32 "swreset-system-offset").1 < 0 then
    ⟨-EINVAL, { g with pmureg := pmureg.val, pmu_alive_base := pmu_alive_base }, n,
      [Call.dev_err (LogLine.failed_to_find_property "swreset-system-offset")]⟩
  else
  let warm_reboot_offset := (p.of_property_read_u32 "swreset-system-offset").2
  if (p.of_property_read_u32 "swreset-system-trigger").1 < 0 then
    ⟨-EINVAL,
      { g with pmureg := pmureg.val, pmu_alive_base := pmu_alive_base,
               warm_reboot_offset := warm_reboot_offset }, n,
      [Call.dev_err (LogLine.failed_to_find_property "swreset-system-trigger")]⟩
  else
  let warm_reboot_trigger := (p.of_property_read_u32 "swreset-system-trigger").2
  if (p.of_property_read_u32 "pshold-control-offset").1 < 0 then
    ⟨-EINVAL,
      { g with pmureg := pmureg.val, pmu_alive_base := pmu_alive_base,
               warm_reboot_offset := warm_reboot_offset,
               warm_reboot_trigger := warm_reboot_trigger }, n,
      [Call.dev_err (LogLine.failed_to_find_property "pshold-control-offset")]⟩
  else
  let cold_reboot_offset := (p.of_property_read_u32 "pshold-control-offset").2
  if (p.of_property_read_u32 "pshold-control-trigger").1 < 0 then
    ⟨-EINVAL,
      { g with pmureg := pmureg.val, pmu_alive_base := pmu_alive_base,
               warm_reboot_offset := warm_reboot_offset,
               warm_reboot_trigger := warm_reboot_trigger,
               cold_reboot_offset := cold_reboot_offset }, n,
      [Call.dev_err (LogLine.failed_to_find_property "shutdown-trigger")]⟩
  else
  let cold_reboot_trigger := (p.of_property_read_u32 "pshold-control-trigger").2
  let shutdown_offset := cold_reboot_offset
  let shutdown_trigger := cold_reboot_trigger
  let reboot_cmd_offset :=
    if (p.of_property_read_u32 "reboot-cmd-offset").1 < 0 then EXYNOS_PMU_SYSIP_DAT0
    else (p.of_property_read_u32 "reboot-cmd-offset").2
  let t : List Call :=
    if (p.of_property_read_u32 "reboot-cmd-offset").1 < 0 then
      [Call.dev_info LogLine.reboot_offset_using_default]
    else []
  let g : Globals :=
    ⟨pmureg.val, warm_reboot_offset, warm_reboot_trigger, cold_reboot_offset,
      cold_reboot_trigger, reboot_cmd_offset, shutdown_offset, shutdown_trigger,
      pmu_alive_base⟩
  let err := p.register_reboot_notifier
  let t := t ++ [Call.register_reboot_notifier notifier_block.exynos_reboot_nb]
  if err ≠ 0 then
    ⟨err, g, n, t ++ [Call.dev_err (LogLine.cannot_register_reboot_handler err)]⟩
  else
  let n := { n with reboot_nb_registered := true }
  let err := p.register_restart_handler
  let t := t ++ [Call.register_restart_handler notifier_block.exynos_restart_nb]
  if err ≠ 0 then
    ⟨err, g, { n with reboot_nb_registered := false },
      t ++ [Call.dev_err (LogLine.cannot_register_restart_handler err),
            Call.unregister_reboot_notifier notifier_block.exynos_reboot_nb]⟩
  else
    ⟨0, g, { n with restart_nb_registered := true },
      t ++ [Call.dev_info LogLine.register_restart_handler_successfully]⟩

/-! ## The mode table as the specification words it -/

/-- The table of section 4.1 of the specification: reason, code. -/
def spec_mode_table : List (String × Nat) :=
  [("charge", 0x0A), ("bootloader", 0xFC), ("fastboot", 0xFA), ("recovery", 0xFF),
   ("dm-verity device corrupted", 0x50), ("rescue", 0xF9), ("shutdown-thermal", 0x51),
   ("from_fastboot", 0x00), ("shell", 0x00), ("userrequested", 0x00),
   ("userrequested,fastboot", 0x00), ("userrequested,recovery", 0x00),
   ("userrequested,recovery,ui", 0x00)]

/-- The contract `resolve` of section 4.1 of the specification: exact lookup of the reason
in the table; an absent reason gives nothing. -/
def spec_resolve : Option String → Option Nat
  | none => none
  | some reason => spec_mode_table.lookup reason

/-- A fresh driver: nothing registered. -/
def Notifiers.none : Notifiers := ⟨false, false⟩

/-- The file-scope variables before `exynos_reboot_probe` (static storage: all zero). -/
def Globals.zero : Globals := ⟨0, 0, 0, 0, 0, 0, 0, 0, 0⟩

/-- The argument with which `exynos_reboot_parse` reaches line 111,
`exynos_reboot_mode_set(value)`, if it reaches it: the code resolved for `cmd`. -/
def exynos_reboot_parse_code (cmd : Option String) : Option Nat :=
  match cmd with
  | none => none
  | some cmd =>
    if (exynos_reboot_parse_value cmd).1 ≠ U32_MAX then some (exynos_reboot_parse_value cmd).1
    else none

/-! ## Trace shapes used in the statements -/

/-- The calls of `n` iterations of the loop of `exynos_reboot_handler` in which the power
key is found asserted: poll, log line, `mdelay(1000)`, `n` times over. -/
def held_polls : Nat → List Call
  | 0 => []
  | n + 1 =>
    [Call.pmic_read_pwrkey_status, Call.pr_info LogLine.pwr_key_not_released,
     Call.mdelay 1000] ++ held_polls n

/-- The calls of the iteration that finds the power key released: poll, log line. -/
def released_poll : List Call :=
  [Call.pmic_read_pwrkey_status, Call.pr_info LogLine.ready_to_power_off]

/-! ## Concrete collaborators, for instances of the theorems -/

/-- Collaborators that accept every write and report the power key released at once. -/
def env_ok : Env := ⟨fun _ _ => 0, fun _ _ _ => 0, fun _ _ _ => 0, fun _ => 0⟩

/-- Collaborators that refuse the privileged write, the fallback and the storage write. -/
def env_refusing : Env := ⟨fun _ _ => -1, fun _ _ _ => -5, fun _ _ _ => -5, fun _ => 0⟩

/-- Collaborators whose power key is asserted on polls 0, 1, 2 and released on poll 3. -/
def env_key_three : Env :=
  ⟨fun _ _ => 0, fun _ _ _ => 0, fun _ _ _ => 0, fun k => if k < 3 then 1 else 0⟩

/-- Collaborators whose power key is asserted on every poll. -/
def env_key_held : Env := ⟨fun _ _ => 0, fun _ _ _ => 0, fun _ _ _ => 0, fun _ => 1⟩

/-- File-scope variables as a probe may leave them. -/
def globals_example : Globals :=
  ⟨0x1000, 0x3a00, 2, 0x30c, 0x100, 0x0810, 0x30c, 0x100, 0x15460000⟩

/-- The syscon regmap, the syscon node and its base address have all been obtained
(lines 169-186 passed). -/
def syscon_resolved (p : ProbeEnv) : Prop :=
  IS_ERR p.syscon_regmap_lookup_by_phandle = false ∧ p.of_parse_phandle.val ≠ 0 ∧
    p.of_address_to_resource.1 = 0

/-- The named property cannot be read: `of_property_read_u32` returns a negative value. -/
def property_missing (p : ProbeEnv) (name : String) : Prop :=
  (p.of_property_read_u32 name).1 < 0

/-- One of the four required properties cannot be read. -/
def required_property_missing (p : ProbeEnv) : Prop :=
  property_missing p "swreset-system-offset" ∨ property_missing p "swreset-system-trigger" ∨
    property_missing p "pshold-control-offset" ∨ property_missing p "pshold-control-trigger"

/-- All required configuration is there: the syscon regmap, node and base address, and the
four required properties. -/
def required_config_present (p : ProbeEnv) : Prop :=
  syscon_resolved p ∧ ¬ required_property_missing p

/-- The file-scope variables as lines 169-214 of `exynos_reboot_probe` leave them when
nothing made it return early. -/
def probed_globals (p : ProbeEnv) : Globals :=
  { pmureg := p.syscon_regmap_lookup_by_phandle.val
    warm_reboot_offset := (p.of_property_read_u32 "swreset-system-offset").2
    warm_reboot_trigger := (p.of_property_read_u32 "swreset-system-trigger").2
    cold_reboot_offset := (p.of_property_read_u32 "pshold-control-offset").2
    cold_reboot_trigger := (p.of_property_read_u32 "pshold-control-trigger").2
    reboot_cmd_offset :=
      if (p.of_property_read_u32 "reboot-cmd-offset").1 < 0 then EXYNOS_PMU_SYSIP_DAT0
      else (p.of_property_read_u32 "reboot-cmd-offset").2
    shutdown_offset := (p.of_property_read_u32 "pshold-control-offset").2
    shutdown_trigger := (p.of_property_read_u32 "pshold-control-trigger").2
    pmu_alive_base := p.of_address_to_resource.2 }

/-- The calls of lines 211-216 of `exynos_reboot_probe`: the log line of the default offset,
if it is used, and the registration of the reboot notifier. -/
def probed_calls (p : ProbeEnv) : List Call :=
  (if (p.of_property_read_u32 "reboot-cmd-offset").1 < 0 then
    [Call.dev_info LogLine.reboot_offset_using_default]
  else []) ++ [Call.register_reboot_notifier notifier_block.exynos_reboot_nb]

instance (p : ProbeEnv) : Decidable (syscon_resolved p) :=
  inferInstanceAs (Decidable (_ ∧ _ ∧ _))

instance (p : ProbeEnv) (name : String) : Decidable (property_missing p name) :=
  inferInstanceAs (Decidable (_ < _))

instance (p : ProbeEnv) : Decidable (required_property_missing p) :=
  inferInstanceAs (Decidable (_ ∨ _ ∨ _ ∨ _))

instance (p : ProbeEnv) : Decidable (required_config_present p) :=
  inferInstanceAs (Decidable (_ ∧ _))

/-- A call that registers or unregisters one of the driver's notifier blocks. -/
def Call.isNotifierCall : Call → Bool
  | .register_reboot_notifier _ => true
  | .unregister_reboot_notifier _ => true
  | .register_restart_handler _ => true
  | _ => false

/-- A call that registers one of the driver's notifier blocks. -/
def Call.isRegistration : Call → Bool
  | .register_reboot_notifier _ => true
  | .register_restart_handler _ => true
  | _ => false

/-- A device tree node with the four required properties and no `reboot-cmd-offset`. -/
def dt_required_only (name : String) : Int × Nat :=
  if name = "swreset-system-offset" then (0, 0x3a00)
  else if name = "swreset-system-trigger" then (0, 2)
  else if name = "pshold-control-offset" then (0, 0x30c)
  else if name = "pshold-control-trigger" then (0, 0x100)
  else (-22, 0)

/-- A device tree node as `dt_required_only`, with `reboot-cmd-offset` set to 0x0814. -/
def dt_with_cmd_offset (name : String) : Int × Nat :=
  if name = "reboot-cmd-offset" then (0, 0x0814) else dt_required_only name

/-- A device tree node as `dt_required_only`, without `pshold-control-trigger`. -/
def dt_no_trigger (name : String) : Int × Nat :=
  if name = "pshold-control-trigger" then (-22, 0) else dt_required_only name

/-- Probe collaborators with all required configuration, no `reboot-cmd-offset`, and both
registrations succeeding. -/
def probe_env_ok : ProbeEnv :=
  ⟨⟨0xffffff8012345000, by decide⟩, ⟨0xffffff8000001000, by decide⟩, (0, 0x15460000),
    dt_required_only, 0, 0⟩

/-- As `probe_env_ok`, with `reboot-cmd-offset` present. -/
def probe_env_cmd_offset : ProbeEnv :=
  { probe_env_ok with of_property_read_u32 := dt_with_cmd_offset }

/-- As `probe_env_ok`, with `pshold-control-trigger` missing. -/
def probe_env_no_trigger : ProbeEnv := { probe_env_ok with of_property_read_u32 := dt_no_trigger }

/-- As `probe_env_no_trigger`, the syscon regmap lookup failing with `ERR_PTR(-ENODEV)`,
that is `ERR_PTR(-19)`. -/
def probe_env_no_syscon : ProbeEnv :=
  { probe_env_no_trigger with syscon_regmap_lookup_by_phandle := ⟨2 ^ 64 - 19, by decide⟩ }

/-- As `probe_env_ok`, `of_address_to_resource` failing with -22. -/
def probe_env_no_resource : ProbeEnv :=
  { probe_env_ok with of_address_to_resource := (-22, 0) }

/-- As `probe_env_ok`, `of_parse_phandle` returning NULL. -/
def probe_env_no_node : ProbeEnv := { probe_env_ok with of_parse_phandle := ⟨0, by decide⟩ }

/-- As `probe_env_ok`, the syscon regmap lookup failing with `ERR_PTR(-19)`. -/
def probe_env_regmap_err : ProbeEnv :=
  { probe_env_ok with syscon_regmap_lookup_by_phandle := ⟨2 ^ 64 - 19, by decide⟩ }

/-- A driver whose restart handler is on its chain already. -/
def notifiers_restart_only : Notifiers := ⟨false, true⟩

/-- As `probe_env_ok`, `register_reboot_notifier` failing with -17. -/
def probe_env_reboot_refused : ProbeEnv := { probe_env_ok with register_reboot_notifier := -17 }

/-- As `probe_env_ok`, `register_restart_handler` failing with -17. -/
def probe_env_restart_refused : ProbeEnv := { probe_env_ok with register_restart_handler := -17 }

/-! ## Lemmas -/

theorem strcmp_chars_eq_zero_iff : ∀ a b : List Char, strcmp_chars a b = 0 ↔ a = b
  | [], [] => by simp [strcmp_chars]
  | [], _ :: _ => by simp [strcmp_chars]
  | _ :: _, [] => by simp [strcmp_chars]
  | a :: as, b :: bs => by
    unfold strcmp_chars
    by_cases h : a = b
    · simp [h, strcmp_chars_eq_zero_iff as bs]
    · simp only [h, if_false, List.cons.injEq, false_and, iff_false]
      split_ifs <;> decide

theorem strcmp_eq_zero_iff (s t : String) : strcmp s t = 0 ↔ s = t := by
  unfold strcmp
  rw [strcmp_chars_eq_zero_iff]
  exact String.ext_iff.symm

theorem parse_value_eq_lookup (s : String) :
    exynos_reboot_parse_value s =
      match spec_mode_table.lookup s with
      | some code => (code, [])
      | none => (U32_MAX, [Call.pr_err (LogLine.unknown_reboot_command s)]) := by
  unfold exynos_reboot_parse_value
  simp only [strcmp_eq_zero_iff]
  split_ifs with h1 h2 h3 h4 h5 h6 h7 h8
  · subst h1; rfl
  · subst h2; rfl
  · subst h3; rfl
  · subst h4; rfl
  · subst h5; rfl
  · subst h6; rfl
  · subst h7; rfl
  · rcases h8 with h | h | h | h | h | h <;> subst h <;> rfl
  · simp only [not_or] at h8
    obtain ⟨k1, k2, k3, k4, k5, k6⟩ := h8
    have hb : ∀ t : String, ¬ s = t → (s == t) = false := fun t h => by simpa using h
    simp only [spec_mode_table, List.lookup, hb _ h1, hb _ h2, hb _ h3, hb _ h4, hb _ h5, hb _ h6,
      hb _ h7, hb _ k1, hb _ k2, hb _ k3, hb _ k4, hb _ k5, hb _ k6]

theorem mode_table_codes_small : ∀ p ∈ spec_mode_table, p.2 < 256 := by decide

theorem mode_table_lookup_self :
    ∀ p ∈ spec_mode_table, spec_mode_table.lookup p.1 = some p.2 := by
  decide

theorem lookup_lt {s : String} {code : Nat} (h : spec_mode_table.lookup s = some code) :
    code < 256 := by
  obtain ⟨l₁, l₂, hl, _⟩ := List.lookup_eq_some_iff.mp h
  have hm : (s, code) ∈ spec_mode_table := by rw [hl]; simp
  exact mode_table_codes_small _ hm

theorem parse_code_eq_resolve (cmd : Option String) :
    exynos_reboot_parse_code cmd = spec_resolve cmd := by
  cases cmd with
  | none => rfl
  | some s =>
    simp only [exynos_reboot_parse_code, spec_resolve, parse_value_eq_lookup]
    cases h : spec_mode_table.lookup s with
    | none => simp
    | some code =>
      have := lookup_lt h
      have hne : code ≠ U32_MAX := by unfold U32_MAX; omega
      simp [hne]

theorem parse_eq (e : Env) (g : Globals) (s : String) :
    exynos_reboot_parse e g (some s) =
      match spec_resolve (some s) with
      | some code => Call.pr_info (LogLine.reboot_command s) :: exynos_reboot_mode_set e g code
      | none => [Call.pr_info (LogLine.reboot_command s),
                 Call.pr_err (LogLine.unknown_reboot_command s)] := by
  simp only [exynos_reboot_parse, spec_resolve, parse_value_eq_lookup]
  cases h : spec_mode_table.lookup s with
  | none => simp
  | some code =>
    have := lookup_lt h
    have hne : code ≠ U32_MAX := by unfold U32_MAX; omega
    simp [hne]

theorem resolve_none_of_not_mem {s : String} (h : s ∉ spec_mode_table.map Prod.fst) :
    spec_resolve (some s) = none := by
  simp only [spec_resolve, List.lookup_eq_none_iff]
  intro p hp
  simp only [bne_iff_ne, ne_eq]
  intro hs
  exact h (List.mem_map.mpr ⟨p, hp, hs.symm⟩)

/-! ## C1 -/

/-- C1: the code resolved by `exynos_reboot_parse` is the one of the documented table for
every input: the code it hands to `exynos_reboot_mode_set` is `spec_resolve cmd`, each table
reason gives its documented code, and the NULL reason, the empty string and every string
that is not exactly a table entry give no code (no call of `exynos_reboot_mode_set`). -/
theorem exynos_reboot_parse_resolves_by_table :
    (∀ cmd : Option String, exynos_reboot_parse_code cmd = spec_resolve cmd) ∧
    (∀ (e : Env) (g : Globals), exynos_reboot_parse e g none = []) ∧
    (∀ (e : Env) (g : Globals) (s : String),
      exynos_reboot_parse e g (some s) =
        match exynos_reboot_parse_code (some s) with
        | some code =>
          Call.pr_info (LogLine.reboot_command s) :: exynos_reboot_mode_set e g code
        | none => [Call.pr_info (LogLine.reboot_command s),
                   Call.pr_err (LogLine.unknown_reboot_command s)]) ∧
    (exynos_reboot_parse_code (some "charge") = some REBOOT_MODE_CHARGE ∧
      exynos_reboot_parse_code (some "bootloader") = some REBOOT_MODE_BOOTLOADER ∧
      exynos_reboot_parse_code (some "fastboot") = some REBOOT_MODE_FASTBOOT ∧
      exynos_reboot_parse_code (some "recovery") = some REBOOT_MODE_RECOVERY ∧
      exynos_reboot_parse_code (some "dm-verity device corrupted") =
        some REBOOT_MODE_DMVERITY_CORRUPTED ∧
      exynos_reboot_parse_code (some "rescue") = some REBOOT_MODE_RESCUE ∧
      exynos_reboot_parse_code (some "shutdown-thermal") = some REBOOT_MODE_SHUTDOWN_THERMAL ∧
      exynos_reboot_parse_code (some "from_fastboot") = some REBOOT_MODE_NORMAL ∧
      exynos_reboot_parse_code (some "shell") = some REBOOT_MODE_NORMAL ∧
      exynos_reboot_parse_code (some "userrequested") = some REBOOT_MODE_NORMAL ∧
      exynos_reboot_parse_code (some "userrequested,fastboot") = some REBOOT_MODE_NORMAL ∧
      exynos_reboot_parse_code (some "userrequested,recovery") = some REBOOT_MODE_NORMAL ∧
      exynos_reboot_parse_code (some "userrequested,recovery,ui") = some REBOOT_MODE_NORMAL) ∧
    ([REBOOT_MODE_CHARGE, REBOOT_MODE_BOOTLOADER, REBOOT_MODE_FASTBOOT, REBOOT_MODE_RECOVERY,
      REBOOT_MODE_DMVERITY_CORRUPTED, REBOOT_MODE_RESCUE, REBOOT_MODE_SHUTDOWN_THERMAL,
      REBOOT_MODE_NORMAL] = [0x0A, 0xFC, 0xFA, 0xFF, 0x50, 0xF9, 0x51, 0x00]) ∧
    exynos_reboot_parse_code none = none ∧
    (∀ s : String,
      s ∉ ["charge", "bootloader", "fastboot", "recovery", "dm-verity device corrupted",
           "rescue", "shutdown-thermal", "from_fastboot", "shell", "userrequested",
           "userrequested,fastboot", "userrequested,recovery", "userrequested,recovery,ui"] →
      exynos_reboot_parse_code (some s) = none) ∧
    (exynos_reboot_parse_code (some "") = none ∧
      exynos_reboot_parse_code (some "Charge") = none ∧
      exynos_reboot_parse_code (some "RECOVERY") = none ∧
      exynos_reboot_parse_code (some "charg") = none ∧
      exynos_reboot_parse_code (some "recovery,ui") = none ∧
      exynos_reboot_parse_code (some "userrequested,") = none ∧
      exynos_reboot_parse_code (some "rescue ") = none ∧
      exynos_reboot_parse_code (some "factory") = none ∧
      exynos_reboot_parse_code (some "blah") = none) := by
  refine ⟨parse_code_eq_resolve, fun _ _ => rfl, ?_, ?_, by decide, rfl, ?_, ?_⟩
  · intro e g s
    rw [parse_code_eq_resolve]
    exact parse_eq e g s
  · simp only [parse_code_eq_resolve]
    decide
  · intro s hs
    rw [parse_code_eq_resolve]
    exact resolve_none_of_not_mem hs
  · simp only [parse_code_eq_resolve]
    decide

/-! ## The persister -/

theorem or_valid_lt {val : Nat} (h : val < 2 ^ 32) : val ||| BIT 31 < 2 ^ 32 :=
  Nat.or_lt_two_pow h (by decide)

theorem mode_set_storage_writes (e : Env) (g : Globals) (val : Nat) :
    (exynos_reboot_mode_set e g val).filter Call.isStorageWrite =
      [Call.gbms_storage_write gbms_tag.GBMS_TAG_RSBM ((val ||| BIT 31) % 2 ^ 32) 4] := by
  unfold exynos_reboot_mode_set
  simp only [BMS_RSBM_VALID]
  split_ifs <;> simp [List.filter, Call.isStorageWrite]

theorem mode_set_register_writes (e : Env) (g : Globals) (val : Nat) :
    (exynos_reboot_mode_set e g val).filter Call.isRegisterWrite =
      if e.set_priv_reg (reboot_cmd_addr g) val ≠ 0 then
        [Call.set_priv_reg (reboot_cmd_addr g) val,
         Call.regmap_write g.pmureg g.reboot_cmd_offset val]
      else [Call.set_priv_reg (reboot_cmd_addr g) val] := by
  unfold exynos_reboot_mode_set
  split_ifs <;> simp_all [List.filter, Call.isRegisterWrite]

/-- C2: for every 32-bit `val` and whatever the privileged write, the fallback and the
storage write answer, `exynos_reboot_mode_set` makes exactly one storage write, to
`GBMS_TAG_RSBM`, of the 4-byte value `val | BIT(31)`, whose bit 31 is set; in particular a
storage write that fails is followed by its log line only. -/
theorem exynos_reboot_mode_set_storage_once (e : Env) (g : Globals) (val : Nat)
    (hval : val < 2 ^ 32) :
    (exynos_reboot_mode_set e g val).filter Call.isStorageWrite =
      [Call.gbms_storage_write gbms_tag.GBMS_TAG_RSBM (val ||| BIT 31) 4] ∧
    (exynos_reboot_mode_set e g val).countP Call.isStorageWrite = 1 ∧
    (val ||| BIT 31).testBit 31 = true ∧
    (e.gbms_storage_write gbms_tag.GBMS_TAG_RSBM (val ||| BIT 31) 4 < 0 →
      ∃ before, exynos_reboot_mode_set e g val =
        before ++ [Call.gbms_storage_write gbms_tag.GBMS_TAG_RSBM (val ||| BIT 31) 4,
          Call.pr_err (LogLine.gbms_storage_failed gbms_tag.GBMS_TAG_RSBM
            (e.gbms_storage_write gbms_tag.GBMS_TAG_RSBM (val ||| BIT 31) 4))] ∧
        before.filter Call.isStorageWrite = []) := by
  have hmod : (val ||| BIT 31) % 2 ^ 32 = val ||| BIT 31 := Nat.mod_eq_of_lt (or_valid_lt hval)
  have hf := mode_set_storage_writes e g val
  rw [hmod] at hf
  refine ⟨hf, ?_, ?_, ?_⟩
  · rw [List.countP_eq_length_filter, hf]; rfl
  · rw [Nat.testBit_or]
    have : (BIT 31).testBit 31 = true := by decide
    simp [this]
  · intro hneg
    unfold exynos_reboot_mode_set
    simp only [BMS_RSBM_VALID, hmod, hneg, if_true]
    split_ifs
    · exact ⟨[Call.set_priv_reg (reboot_cmd_addr g) val,
        Call.pr_info LogLine.priv_reg_failed_using_regmap,
        Call.regmap_write g.pmureg g.reboot_cmd_offset val], by simp,
        by simp [List.filter, Call.isStorageWrite]⟩
    · exact ⟨[Call.set_priv_reg (reboot_cmd_addr g) val], by simp,
        by simp [List.filter, Call.isStorageWrite]⟩

/-- An instance of C2: primary write, fallback and storage write all refused, `val` the
code of "recovery". -/
theorem exynos_reboot_mode_set_storage_once_witness :
    (exynos_reboot_mode_set env_refusing globals_example 0xFF).filter Call.isStorageWrite =
      [Call.gbms_storage_write gbms_tag.GBMS_TAG_RSBM 0x800000FF 4] ∧
    (exynos_reboot_mode_set env_refusing globals_example 0xFF).countP Call.isStorageWrite = 1 :=
  ⟨(exynos_reboot_mode_set_storage_once env_refusing globals_example 0xFF (by decide)).1,
   (exynos_reboot_mode_set_storage_once env_refusing globals_example 0xFF (by decide)).2.1⟩

/-- C3: for every `val`, `exynos_reboot_mode_set` calls `set_priv_reg` exactly once, with
the address `pmu_alive_base + reboot_cmd_offset` (a `phys_addr_t` sum) and the value `val`;
when that call returns non-zero it calls `regmap_write` exactly once, after it, with
`pmureg`, `reboot_cmd_offset` and `val`; when it returns zero it does not call
`regmap_write`. -/
theorem exynos_reboot_mode_set_primary_then_fallback (e : Env) (g : Globals) (val : Nat) :
    reboot_cmd_addr g = (g.pmu_alive_base + g.reboot_cmd_offset) % 2 ^ 64 ∧
    (g.pmu_alive_base + g.reboot_cmd_offset < 2 ^ 64 →
      reboot_cmd_addr g = g.pmu_alive_base + g.reboot_cmd_offset) ∧
    (∃ rest, exynos_reboot_mode_set e g val =
      Call.set_priv_reg (reboot_cmd_addr g) val :: rest) ∧
    (e.set_priv_reg (reboot_cmd_addr g) val ≠ 0 →
      (exynos_reboot_mode_set e g val).filter Call.isRegisterWrite =
        [Call.set_priv_reg (reboot_cmd_addr g) val,
         Call.regmap_write g.pmureg g.reboot_cmd_offset val]) ∧
    (e.set_priv_reg (reboot_cmd_addr g) val = 0 →
      (exynos_reboot_mode_set e g val).filter Call.isRegisterWrite =
        [Call.set_priv_reg (reboot_cmd_addr g) val]) := by
  refine ⟨rfl, fun h => Nat.mod_eq_of_lt h, ?_, ?_, ?_⟩
  · by_cases h : e.set_priv_reg (reboot_cmd_addr g) val = 0 <;>
      simp [exynos_reboot_mode_set, h]
  · intro h
    rw [mode_set_register_writes, if_pos h]
  · intro h
    rw [mode_set_register_writes, if_neg (by simpa using h)]

/-- Instances of C3: a refused privileged write is followed by one fallback write of the
same value at the same offset, an accepted one by none. -/
theorem exynos_reboot_mode_set_primary_then_fallback_witness :
    (exynos_reboot_mode_set env_refusing globals_example 0xFA).filter Call.isRegisterWrite =
      [Call.set_priv_reg 0x15460810 0xFA, Call.regmap_write 0x1000 0x0810 0xFA] ∧
    (exynos_reboot_mode_set env_ok globals_example 0xFA).filter Call.isRegisterWrite =
      [Call.set_priv_reg 0x15460810 0xFA] :=
  ⟨(exynos_reboot_mode_set_primary_then_fallback env_refusing globals_example 0xFA).2.2.2.1
      (by decide),
   (exynos_reboot_mode_set_primary_then_fallback env_ok globals_example 0xFA).2.2.2.2
      (by decide)⟩

/-! ## C10 -/

/-- C10: the secondary record loses nothing and the sentinel is sound. Every enumerator `c`
of `pon_reboot_mode` is below 2^31, is stored by `exynos_reboot_mode_set` as `c | BIT(31)`,
and is recovered from that record by clearing bit 31, so two enumerators with the same record
are equal; `U32_MAX` is no enumerator; and every table reason is resolved (not taken for
unrecognized) and persisted with its code, the six reasons of `NORMAL` as 0x80000000. -/
theorem secondary_record_lossless_sentinel_sound :
    (∀ c ∈ pon_reboot_mode, c < 2 ^ 31 ∧ (c ||| BIT 31) &&& (U32_MAX ^^^ BIT 31) = c) ∧
    (∀ (e : Env) (g : Globals), ∀ c ∈ pon_reboot_mode,
      (exynos_reboot_mode_set e g c).filter Call.isStorageWrite =
        [Call.gbms_storage_write gbms_tag.GBMS_TAG_RSBM (c ||| BIT 31) 4]) ∧
    (∀ c₁ ∈ pon_reboot_mode, ∀ c₂ ∈ pon_reboot_mode,
      c₁ ||| BIT 31 = c₂ ||| BIT 31 → c₁ = c₂) ∧
    U32_MAX ∉ pon_reboot_mode ∧
    (∀ (e : Env) (g : Globals), ∀ p ∈ spec_mode_table,
      exynos_reboot_parse_code (some p.1) = some p.2 ∧
      p.2 ∈ pon_reboot_mode ∧
      (exynos_reboot_parse e g (some p.1)).filter Call.isStorageWrite =
        [Call.gbms_storage_write gbms_tag.GBMS_TAG_RSBM (p.2 ||| BIT 31) 4]) ∧
    (∀ (e : Env) (g : Globals),
      ∀ s ∈ ["from_fastboot", "shell", "userrequested", "userrequested,fastboot",
             "userrequested,recovery", "userrequested,recovery,ui"],
      exynos_reboot_parse_code (some s) = some REBOOT_MODE_NORMAL ∧
      (exynos_reboot_parse e g (some s)).filter Call.isStorageWrite =
        [Call.gbms_storage_write gbms_tag.GBMS_TAG_RSBM 0x80000000 4]) := by
  have hstore : ∀ (e : Env) (g : Globals), ∀ p ∈ spec_mode_table,
      exynos_reboot_parse_code (some p.1) = some p.2 ∧
      p.2 ∈ pon_reboot_mode ∧
      (exynos_reboot_parse e g (some p.1)).filter Call.isStorageWrite =
        [Call.gbms_storage_write gbms_tag.GBMS_TAG_RSBM (p.2 ||| BIT 31) 4] := by
    intro e g p hp
    have hl : spec_resolve (some p.1) = some p.2 := mode_table_lookup_self p hp
    have hlt : p.2 < 2 ^ 32 := by have := mode_table_codes_small p hp; omega
    have hmem : ∀ q ∈ spec_mode_table, q.2 ∈ pon_reboot_mode := by decide
    refine ⟨by rw [parse_code_eq_resolve, hl], hmem p hp, ?_⟩
    rw [parse_eq, hl]
    simp only [List.filter, Call.isStorageWrite]
    have := mode_set_storage_writes e g p.2
    rw [Nat.mod_eq_of_lt (or_valid_lt hlt)] at this
    exact this
  refine ⟨by decide, ?_, by decide, by decide, hstore, ?_⟩
  · intro e g c hc
    have hlt : ∀ c ∈ pon_reboot_mode, c < 2 ^ 32 := by decide
    rw [mode_set_storage_writes, Nat.mod_eq_of_lt (or_valid_lt (hlt c hc))]
  · intro e g s hs
    have hin : ∀ s ∈ ["from_fastboot", "shell", "userrequested", "userrequested,fastboot",
        "userrequested,recovery", "userrequested,recovery,ui"],
        (s, 0) ∈ spec_mode_table := by decide
    have := hstore e g (s, 0) (hin s hs)
    have h0 : (0x80000000 : Nat) = 0 ||| BIT 31 := by decide
    rw [h0]
    exact ⟨this.1, this.2.2⟩

/-! ## The handler -/

theorem held_polls_countP_poll (n : Nat) : (held_polls n).countP Call.isPoll = n := by
  induction n with
  | zero => rfl
  | succ n ih => simp [held_polls, List.countP_cons, Call.isPoll, ih]

theorem held_polls_filter_delay (n : Nat) :
    (held_polls n).filter Call.isDelay = List.replicate n (Call.mdelay 1000) := by
  induction n with
  | zero => rfl
  | succ n ih => simp [held_polls, List.filter, Call.isDelay, ih, List.replicate_succ]

theorem held_polls_filter_write (n : Nat) : (held_polls n).filter Call.isWrite = [] := by
  induction n with
  | zero => rfl
  | succ n ih =>
    simp [held_polls, List.filter, Call.isWrite, Call.isRegisterWrite, Call.isStorageWrite, ih]

theorem loop_released (e : Env) (n : Nat) : ∀ (k fuel : Nat),
    (∀ i < n, e.pmic_read_pwrkey_status (k + i) ≠ 0) →
    e.pmic_read_pwrkey_status (k + n) = 0 → n < fuel →
    exynos_reboot_handler_loop e fuel k = (true, held_polls n ++ released_poll) := by
  induction n with
  | zero =>
    intro k fuel _ hrel hfuel
    obtain ⟨f, rfl⟩ : ∃ f, fuel = f + 1 := ⟨fuel - 1, by omega⟩
    simp only [Nat.add_zero] at hrel
    simp [exynos_reboot_handler_loop, hrel, held_polls, released_poll]
  | succ n ih =>
    intro k fuel hheld hrel hfuel
    obtain ⟨f, rfl⟩ : ∃ f, fuel = f + 1 := ⟨fuel - 1, by omega⟩
    have h0 : e.pmic_read_pwrkey_status k ≠ 0 := by simpa using hheld 0 (by omega)
    have hrec := ih (k + 1) f
      (fun i hi => by
        have e1 : k + 1 + i = k + (i + 1) := by omega
        rw [e1]; exact hheld (i + 1) (by omega))
      (by
        have e1 : k + 1 + n = k + (n + 1) := by omega
        rw [e1]; exact hrel) (by omega)
    simp [exynos_reboot_handler_loop, h0, hrec, held_polls]

theorem loop_held (e : Env) : ∀ (fuel k : Nat),
    (∀ i < fuel, e.pmic_read_pwrkey_status (k + i) ≠ 0) →
    exynos_reboot_handler_loop e fuel k = (false, held_polls fuel) := by
  intro fuel
  induction fuel with
  | zero => intro k _; rfl
  | succ f ih =>
    intro k hheld
    have h0 : e.pmic_read_pwrkey_status k ≠ 0 := by simpa using hheld 0 (by omega)
    have hrec := ih (k + 1)
      (fun i hi => by
        have e1 : k + 1 + i = k + (i + 1) := by omega
        rw [e1]; exact hheld (i + 1) (by omega))
    simp [exynos_reboot_handler_loop, h0, hrec, held_polls]

theorem loop_filter_write (e : Env) : ∀ (fuel k : Nat),
    (exynos_reboot_handler_loop e fuel k).2.filter Call.isWrite = [] := by
  intro fuel
  induction fuel with
  | zero => intro k; rfl
  | succ f ih =>
    intro k
    unfold exynos_reboot_handler_loop
    split_ifs
    · rfl
    · simp [List.filter, Call.isWrite, Call.isRegisterWrite, Call.isStorageWrite, ih]

theorem loop_first_poll (e : Env) (fuel k : Nat) :
    ∃ rest, (exynos_reboot_handler_loop e (fuel + 1) k).2 =
      Call.pmic_read_pwrkey_status :: rest := by
  unfold exynos_reboot_handler_loop
  split_ifs <;> exact ⟨_, rfl⟩

theorem loop_left_polled (e : Env) (fuel k : Nat)
    (h : (exynos_reboot_handler_loop e fuel k).1 = true) :
    1 ≤ (exynos_reboot_handler_loop e fuel k).2.countP Call.isPoll := by
  cases fuel with
  | zero => simp [exynos_reboot_handler_loop] at h
  | succ f =>
    obtain ⟨rest, hr⟩ := loop_first_poll e f k
    rw [hr, List.countP_cons_of_pos _ _ (by rfl)]
    omega

theorem mode_set_filter_poll (e : Env) (g : Globals) (val : Nat) :
    (exynos_reboot_mode_set e g val).filter Call.isPoll = [] ∧
    (exynos_reboot_mode_set e g val).filter Call.isDelay = [] := by
  simp only [exynos_reboot_mode_set]
  constructor <;> split_ifs <;> rfl

theorem parse_filter_poll (e : Env) (g : Globals) (cmd : Option String) :
    (exynos_reboot_parse e g cmd).filter Call.isPoll = [] ∧
    (exynos_reboot_parse e g cmd).filter Call.isDelay = [] := by
  cases cmd with
  | none => exact ⟨rfl, rfl⟩
  | some s =>
    rw [parse_eq]
    cases spec_resolve (some s) with
    | none => exact ⟨rfl, rfl⟩
    | some code =>
      have := mode_set_filter_poll e g code
      simp only [List.filter, Call.isPoll, Call.isDelay]
      exact this

theorem parse_filter_write_of_unresolved (e : Env) (g : Globals) (cmd : Option String)
    (h : spec_resolve cmd = none) : (exynos_reboot_parse e g cmd).filter Call.isWrite = [] := by
  cases cmd with
  | none => rfl
  | some s => rw [parse_eq, h]; rfl

theorem handler_power_off (e : Env) (g : Globals) (cmd : Option String) (fuel : Nat) :
    exynos_reboot_handler e g SYS_POWER_OFF cmd fuel =
      (if (exynos_reboot_handler_loop e fuel 0).1 then some NOTIFY_DONE else none,
       exynos_reboot_parse e g cmd ++ (exynos_reboot_handler_loop e fuel 0).2) := by
  simp [exynos_reboot_handler]

theorem handler_other (e : Env) (g : Globals) (mode : Nat) (cmd : Option String) (fuel : Nat)
    (h : mode ≠ SYS_POWER_OFF) :
    exynos_reboot_handler e g mode cmd fuel = (some NOTIFY_DONE, exynos_reboot_parse e g cmd) := by
  simp [exynos_reboot_handler, h]

theorem handler_filter_write (e : Env) (g : Globals) (mode : Nat) (cmd : Option String)
    (fuel : Nat) :
    (exynos_reboot_handler e g mode cmd fuel).2.filter Call.isWrite =
      (exynos_reboot_parse e g cmd).filter Call.isWrite := by
  by_cases h : mode = SYS_POWER_OFF
  · subst h
    rw [handler_power_off]
    simp [loop_filter_write]
  · rw [handler_other e g mode cmd fuel h]

theorem foldl_of_no_write {σ : Type} (step : σ → Call → σ)
    (hstep : ∀ s c, c.isWrite = false → step s c = s) :
    ∀ (t : List Call) (s₀ : σ), t.filter Call.isWrite = [] → t.foldl step s₀ = s₀ := by
  intro t
  induction t with
  | nil => intro _ _; rfl
  | cons c t ih =>
    intro s₀ h
    have hc : c.isWrite = false := by
      by_contra hc
      simp only [Bool.not_eq_false] at hc
      simp [List.filter, hc] at h
    have ht : t.filter Call.isWrite = [] := by simpa [List.filter, hc] using h
    rw [List.foldl_cons, hstep s₀ c hc, ih s₀ ht]

/-! ## C5 -/

/-- C5: on a power-off event, if the power key is reported asserted on the first `n` polls
and released on the next one, then `exynos_reboot_handler` (given more than `n` iterations)
returns `NOTIFY_DONE` after exactly the calls of `exynos_reboot_parse`, `n` rounds of poll,
log line and `mdelay(1000)`, and a last poll with its log line and no delay: `n + 1` polls,
`n` delays, each of 1000 ms; and after `n` or fewer iterations it has not returned. -/
theorem exynos_reboot_handler_power_off_waits (e : Env) (g : Globals) (cmd : Option String)
    (n fuel : Nat)
    (hheld : ∀ i < n, e.pmic_read_pwrkey_status i ≠ 0)
    (hrel : e.pmic_read_pwrkey_status n = 0) (hfuel : n < fuel) :
    exynos_reboot_handler e g SYS_POWER_OFF cmd fuel =
      (some NOTIFY_DONE, exynos_reboot_parse e g cmd ++ (held_polls n ++ released_poll)) ∧
    (exynos_reboot_handler e g SYS_POWER_OFF cmd fuel).2.countP Call.isPoll = n + 1 ∧
    (exynos_reboot_handler e g SYS_POWER_OFF cmd fuel).2.filter Call.isDelay =
      List.replicate n (Call.mdelay 1000) ∧
    (exynos_reboot_handler e g SYS_POWER_OFF cmd fuel).2.countP Call.isDelay = n ∧
    (∀ m, m ≤ n →
      (exynos_reboot_handler e g SYS_POWER_OFF cmd m).1 = none ∧
      (exynos_reboot_handler e g SYS_POWER_OFF cmd m).2 =
        exynos_reboot_parse e g cmd ++ held_polls m) := by
  have hrun : exynos_reboot_handler e g SYS_POWER_OFF cmd fuel =
      (some NOTIFY_DONE, exynos_reboot_parse e g cmd ++ (held_polls n ++ released_poll)) := by
    rw [handler_power_off,
      loop_released e n 0 fuel (by simpa using hheld) (by simpa using hrel) hfuel]
    rfl
  have hp := parse_filter_poll e g cmd
  have hdelay : (exynos_reboot_handler e g SYS_POWER_OFF cmd fuel).2.filter Call.isDelay =
      List.replicate n (Call.mdelay 1000) := by
    rw [hrun]
    simp [List.filter_append, hp.2, held_polls_filter_delay, released_poll, List.filter,
      Call.isDelay]
  refine ⟨hrun, ?_, hdelay, ?_, ?_⟩
  · rw [hrun]
    simp only [List.countP_append, held_polls_countP_poll]
    rw [List.countP_eq_length_filter, hp.1]
    simp [released_poll, List.countP_cons, Call.isPoll]
  · rw [List.countP_eq_length_filter, hdelay, List.length_replicate]
  · intro m hm
    rw [handler_power_off,
      loop_held e m 0 (fun i hi => by simpa using hheld i (by omega))]
    exact ⟨rfl, rfl⟩

/-- The instance of C5 with `n = 3`: the power key asserted on three polls and released on
the fourth gives four polls and three delays of 1000 ms before `NOTIFY_DONE` is returned,
and no return within the first three iterations. -/
theorem exynos_reboot_handler_power_off_waits_witness :
    (exynos_reboot_handler env_key_three globals_example SYS_POWER_OFF none 4).1 =
      some NOTIFY_DONE ∧
    (exynos_reboot_handler env_key_three globals_example SYS_POWER_OFF none 4).2.countP
      Call.isPoll = 4 ∧
    (exynos_reboot_handler env_key_three globals_example SYS_POWER_OFF none 4).2.filter
      Call.isDelay = [Call.mdelay 1000, Call.mdelay 1000, Call.mdelay 1000] ∧
    (exynos_reboot_handler env_key_three globals_example SYS_POWER_OFF none 3).1 = none :=
  have h := exynos_reboot_handler_power_off_waits env_key_three globals_example none 3 4
    (by decide) (by decide) (by decide)
  ⟨by rw [h.1], h.2.1, h.2.2.1, (h.2.2.2.2 3 (by decide)).1⟩

/-! ## C4 -/

/-- C4 as stated fails: on a power-off event with the unrecognized reason "blah" and a power
key that stays asserted, `exynos_reboot_handler` returns nothing, however many iterations
of its loop are run. -/
theorem exynos_reboot_handler_unrecognized_never_returns :
    "blah" ∉ spec_mode_table.map Prod.fst ∧
    ¬ ∃ fuel r,
      (exynos_reboot_handler env_key_held globals_example SYS_POWER_OFF (some "blah") fuel).1 =
        some r := by
  refine ⟨by decide, ?_⟩
  rintro ⟨fuel, r, h⟩
  rw [handler_power_off, loop_held env_key_held fuel 0 (fun _ _ => by simp [env_key_held])] at h
  simp at h

/-- C4, amended: for a reason that is absent or not in the mode table,
`exynos_reboot_handler` makes no privileged register write, no fallback write and no
storage write, so any record that changes only through those writes keeps its value; it
never returns anything but `NOTIFY_DONE`; it returns `NOTIFY_DONE` at once for an event other
than power-off, and for a power-off event once the power key is reported released; and on a
power-off event it does not return while the power key stays asserted: after `m` polls that
all found the key asserted it has not returned, and with a key asserted on every poll it
never returns. -/
theorem exynos_reboot_handler_unrecognized_no_persistence (e : Env) (g : Globals)
    (mode : Nat) (cmd : Option String)
    (hcmd : ∀ s, cmd = some s → s ∉ spec_mode_table.map Prod.fst) :
    (∀ fuel, (exynos_reboot_handler e g mode cmd fuel).2.filter Call.isWrite = []) ∧
    (∀ fuel (σ : Type) (step : σ → Call → σ) (s₀ : σ),
      (∀ s c, c.isWrite = false → step s c = s) →
      (exynos_reboot_handler e g mode cmd fuel).2.foldl step s₀ = s₀) ∧
    (∀ fuel r, (exynos_reboot_handler e g mode cmd fuel).1 = some r → r = NOTIFY_DONE) ∧
    (mode ≠ SYS_POWER_OFF →
      ∀ fuel, (exynos_reboot_handler e g mode cmd fuel).1 = some NOTIFY_DONE) ∧
    (∀ n fuel, (∀ i < n, e.pmic_read_pwrkey_status i ≠ 0) →
      e.pmic_read_pwrkey_status n = 0 → n < fuel →
      (exynos_reboot_handler e g SYS_POWER_OFF cmd fuel).1 = some NOTIFY_DONE) ∧
    (∀ m, (∀ i < m, e.pmic_read_pwrkey_status i ≠ 0) →
      (exynos_reboot_handler e g SYS_POWER_OFF cmd m).1 = none ∧
      (exynos_reboot_handler e g SYS_POWER_OFF cmd m).2 =
        exynos_reboot_parse e g cmd ++ held_polls m) ∧
    ((∀ i, e.pmic_read_pwrkey_status i ≠ 0) →
      ∀ fuel, (exynos_reboot_handler e g SYS_POWER_OFF cmd fuel).1 = none) := by
  have hres : spec_resolve cmd = none := by
    cases cmd with
    | none => rfl
    | some s => exact resolve_none_of_not_mem (hcmd s rfl)
  have hw : ∀ fuel, (exynos_reboot_handler e g mode cmd fuel).2.filter Call.isWrite = [] := by
    intro fuel
    rw [handler_filter_write, parse_filter_write_of_unresolved e g cmd hres]
  have hheld : ∀ m, (∀ i < m, e.pmic_read_pwrkey_status i ≠ 0) →
      (exynos_reboot_handler e g SYS_POWER_OFF cmd m).1 = none ∧
      (exynos_reboot_handler e g SYS_POWER_OFF cmd m).2 =
        exynos_reboot_parse e g cmd ++ held_polls m := by
    intro m hm
    rw [handler_power_off, loop_held e m 0 (fun i hi => by simpa using hm i hi)]
    exact ⟨rfl, rfl⟩
  refine ⟨hw, ?_, ?_, ?_, ?_, hheld, fun hall fuel => (hheld fuel (fun i _ => hall i)).1⟩
  · intro fuel σ step s₀ hstep
    exact foldl_of_no_write step hstep _ s₀ (hw fuel)
  · intro fuel r h
    by_cases hm : mode = SYS_POWER_OFF
    · subst hm
      rw [handler_power_off] at h
      simp only at h
      split_ifs at h
      exact (Option.some.inj h).symm
    · rw [handler_other e g mode cmd fuel hm] at h
      exact (Option.some.inj h).symm
  · intro hm fuel
    rw [handler_other e g mode cmd fuel hm]
  · intro n fuel hheld hrel hfuel
    rw [handler_power_off,
      loop_released e n 0 fuel (by simpa using hheld) (by simpa using hrel) hfuel]
    rfl

/-- Instances of the amended C4: a restart with the reason "blah" writes nothing and returns
`NOTIFY_DONE`; so does a power-off with the NULL reason once the key is released; a
power-off with the reason "blah" and a key that stays asserted has not returned after 7
polls. -/
theorem exynos_reboot_handler_unrecognized_no_persistence_witness :
    (exynos_reboot_handler env_ok globals_example SYS_RESTART (some "blah") 0).2.filter
      Call.isWrite = [] ∧
    (exynos_reboot_handler env_ok globals_example SYS_RESTART (some "blah") 0).1 =
      some NOTIFY_DONE ∧
    (exynos_reboot_handler env_key_three globals_example SYS_POWER_OFF none 4).1 =
      some NOTIFY_DONE ∧
    (exynos_reboot_handler env_key_held globals_example SYS_POWER_OFF (some "blah") 7).1 =
      none :=
  ⟨(exynos_reboot_handler_unrecognized_no_persistence env_ok globals_example SYS_RESTART
      (some "blah") (fun s hs => by cases hs; decide)).1 0,
   (exynos_reboot_handler_unrecognized_no_persistence env_ok globals_example SYS_RESTART
      (some "blah") (fun s hs => by cases hs; decide)).2.2.2.1 (by decide) 0,
   (exynos_reboot_handler_unrecognized_no_persistence env_key_three globals_example
      SYS_POWER_OFF none (fun s hs => by cases hs)).2.2.2.2.1 3 4 (by decide) (by decide)
      (by decide),
   (exynos_reboot_handler_unrecognized_no_persistence env_key_held globals_example
      SYS_POWER_OFF (some "blah") (fun s hs => by cases hs; decide)).2.2.2.2.2.2
      (fun _ => (by decide : (1 : Int) ≠ 0)) 7⟩

/-! ## C6 -/

/-- C6: the guard runs exactly on power-off, whatever the reason. On a power-off event the
first call of `exynos_reboot_handler` after those of `exynos_reboot_parse` is a power-key
poll, and it does not return without having polled; on any other event (restart, halt or
any other value) it returns `NOTIFY_DONE` after the calls of `exynos_reboot_parse` alone,
with no poll and no delay. -/
theorem exynos_reboot_handler_guard_iff_power_off (e : Env) (g : Globals)
    (cmd : Option String) :
    (∀ fuel, ∃ rest, (exynos_reboot_handler e g SYS_POWER_OFF cmd (fuel + 1)).2 =
      exynos_reboot_parse e g cmd ++ Call.pmic_read_pwrkey_status :: rest) ∧
    (∀ fuel r, (exynos_reboot_handler e g SYS_POWER_OFF cmd fuel).1 = some r →
      1 ≤ (exynos_reboot_handler e g SYS_POWER_OFF cmd fuel).2.countP Call.isPoll) ∧
    (∀ mode fuel, mode ≠ SYS_POWER_OFF →
      exynos_reboot_handler e g mode cmd fuel =
        (some NOTIFY_DONE, exynos_reboot_parse e g cmd) ∧
      (exynos_reboot_handler e g mode cmd fuel).2.filter Call.isPoll = [] ∧
      (exynos_reboot_handler e g mode cmd fuel).2.filter Call.isDelay = []) ∧
    SYS_RESTART ≠ SYS_POWER_OFF ∧ SYS_HALT ≠ SYS_POWER_OFF := by
  refine ⟨?_, ?_, ?_, by decide, by decide⟩
  · intro fuel
    obtain ⟨rest, hr⟩ := loop_first_poll e fuel 0
    exact ⟨rest, by rw [handler_power_off, hr]⟩
  · intro fuel r h
    rw [handler_power_off] at h ⊢
    simp only at h ⊢
    have hl : (exynos_reboot_handler_loop e fuel 0).1 = true := by
      by_contra hc
      simp [hc] at h
    have := loop_left_polled e fuel 0 hl
    rw [List.countP_append]
    omega
  · intro mode fuel hm
    rw [handler_other e g mode cmd fuel hm]
    exact ⟨rfl, parse_filter_poll e g cmd⟩

/-- Instances of C6: a power-off with the NULL reason polls, a restart and a halt with a
table reason do not. -/
theorem exynos_reboot_handler_guard_iff_power_off_witness :
    1 ≤ (exynos_reboot_handler env_ok globals_example SYS_POWER_OFF none 1).2.countP
      Call.isPoll ∧
    (exynos_reboot_handler env_ok globals_example SYS_RESTART (some "recovery") 1).2.filter
      Call.isPoll = [] ∧
    (exynos_reboot_handler env_ok globals_example SYS_HALT (some "recovery") 1).2.filter
      Call.isDelay = [] :=
  ⟨(exynos_reboot_handler_guard_iff_power_off env_ok globals_example none).2.1 1
      NOTIFY_DONE (by decide),
   ((exynos_reboot_handler_guard_iff_power_off env_ok globals_example
      (some "recovery")).2.2.1 SYS_RESTART 1 (by decide)).2.1,
   ((exynos_reboot_handler_guard_iff_power_off env_ok globals_example
      (some "recovery")).2.2.1 SYS_HALT 1 (by decide)).2.2⟩

/-! ## C7 -/

/-- C7: resolution and persistence do not depend on the event and come before the guard. For
every reason, the register and storage writes of `exynos_reboot_handler` are those of
`exynos_reboot_parse`, hence the same for any two events; and on a power-off event the calls
are those of `exynos_reboot_parse`, among which there is no poll, followed by those of the
loop, among which there is no write. -/
theorem exynos_reboot_handler_persists_before_guard (e : Env) (g : Globals)
    (cmd : Option String) :
    (∀ mode₁ mode₂ fuel₁ fuel₂,
      (exynos_reboot_handler e g mode₁ cmd fuel₁).2.filter Call.isWrite =
        (exynos_reboot_handler e g mode₂ cmd fuel₂).2.filter Call.isWrite) ∧
    (∀ mode fuel,
      (exynos_reboot_handler e g mode cmd fuel).2.filter Call.isWrite =
        (exynos_reboot_parse e g cmd).filter Call.isWrite) ∧
    (∀ fuel, ∃ guard,
      (exynos_reboot_handler e g SYS_POWER_OFF cmd fuel).2 =
        exynos_reboot_parse e g cmd ++ guard ∧
      (exynos_reboot_parse e g cmd).filter Call.isPoll = [] ∧
      guard.filter Call.isWrite = [] ∧
      (0 < fuel → ∃ rest, guard = Call.pmic_read_pwrkey_status :: rest)) := by
  refine ⟨?_, fun mode fuel => handler_filter_write e g mode cmd fuel, ?_⟩
  · intro m₁ m₂ f₁ f₂
    rw [handler_filter_write, handler_filter_write]
  · intro fuel
    refine ⟨(exynos_reboot_handler_loop e fuel 0).2, by rw [handler_power_off],
      (parse_filter_poll e g cmd).1, loop_filter_write e fuel 0, ?_⟩
    intro hf
    obtain ⟨f, rfl⟩ : ∃ f, fuel = f + 1 := ⟨fuel - 1, by omega⟩
    exact loop_first_poll e f 0

/-- An instance of C7: the reason "recovery" gives the same writes on a restart and on a
power-off. -/
theorem exynos_reboot_handler_persists_before_guard_witness :
    (exynos_reboot_handler env_ok globals_example SYS_RESTART (some "recovery") 0).2.filter
        Call.isWrite =
      (exynos_reboot_handler env_ok globals_example SYS_POWER_OFF (some "recovery") 5).2.filter
        Call.isWrite :=
  (exynos_reboot_handler_persists_before_guard env_ok globals_example (some "recovery")).1
    SYS_RESTART SYS_POWER_OFF 0 5

/-! ## Setup -/

theorem PTR_ERR_ne_zero (ptr : Fin (2 ^ 64)) (h : IS_ERR ptr = true) :
    int_of_long (PTR_ERR ptr) ≠ 0 := by
  have hlt := ptr.isLt
  simp only [IS_ERR, MAX_ERRNO, decide_eq_true_eq] at h
  unfold int_of_long PTR_ERR
  have h63 : 2 ^ 63 ≤ ptr.val := by omega
  rw [if_pos h63]
  omega

theorem probe_is_err (p : ProbeEnv) (g : Globals) (n : Notifiers)
    (h1 : IS_ERR p.syscon_regmap_lookup_by_phandle = true) :
    exynos_reboot_probe p g n =
      ⟨int_of_long (PTR_ERR p.syscon_regmap_lookup_by_phandle),
        { g with pmureg := p.syscon_regmap_lookup_by_phandle.val }, n,
        [Call.dev_err LogLine.fail_to_get_regmap]⟩ := by
  unfold exynos_reboot_probe
  dsimp only
  rw [if_pos h1]

theorem probe_no_node (p : ProbeEnv) (g : Globals) (n : Notifiers)
    (h1 : IS_ERR p.syscon_regmap_lookup_by_phandle = false)
    (h2 : p.of_parse_phandle.val = 0) :
    exynos_reboot_probe p g n =
      ⟨-EINVAL, { g with pmureg := p.syscon_regmap_lookup_by_phandle.val }, n,
        [Call.dev_err LogLine.syscon_node_not_found]⟩ := by
  unfold exynos_reboot_probe
  dsimp only
  rw [if_neg (by simp [h1]), if_pos h2]

theorem probe_no_resource (p : ProbeEnv) (g : Globals) (n : Notifiers)
    (h1 : IS_ERR p.syscon_regmap_lookup_by_phandle = false)
    (h2 : p.of_parse_phandle.val ≠ 0) (h3 : p.of_address_to_resource.1 ≠ 0) :
    exynos_reboot_probe p g n =
      ⟨-ENOMEM, { g with pmureg := p.syscon_regmap_lookup_by_phandle.val }, n,
        [Call.dev_err LogLine.failed_to_get_syscon_base]⟩ := by
  unfold exynos_reboot_probe
  dsimp only
  rw [if_neg (by simp [h1]), if_neg h2, if_pos h3]

theorem probe_missing (p : ProbeEnv) (g : Globals) (n : Notifiers)
    (hs : syscon_resolved p) (hm : required_property_missing p) :
    (exynos_reboot_probe p g n).ret = -EINVAL ∧ (exynos_reboot_probe p g n).n = n ∧
    (exynos_reboot_probe p g n).trace.filter Call.isRegistration = [] := by
  obtain ⟨h1, h2, h3⟩ := hs
  have h3n : ¬ p.of_address_to_resource.1 ≠ 0 := by simp [h3]
  unfold exynos_reboot_probe
  dsimp only
  rw [if_neg (by simp [h1]), if_neg h2, if_neg h3n]
  by_cases k1 : (p.of_property_read_u32 "swreset-system-offset").1 < 0
  · rw [if_pos k1]; exact ⟨rfl, rfl, rfl⟩
  rw [if_neg k1]
  by_cases k2 : (p.of_property_read_u32 "swreset-system-trigger").1 < 0
  · rw [if_pos k2]; exact ⟨rfl, rfl, rfl⟩
  rw [if_neg k2]
  by_cases k3 : (p.of_property_read_u32 "pshold-control-offset").1 < 0
  · rw [if_pos k3]; exact ⟨rfl, rfl, rfl⟩
  rw [if_neg k3]
  by_cases k4 : (p.of_property_read_u32 "pshold-control-trigger").1 < 0
  · rw [if_pos k4]; exact ⟨rfl, rfl, rfl⟩
  · exfalso
    rcases hm with h | h | h | h
    · exact k1 h
    · exact k2 h
    · exact k3 h
    · exact k4 h

theorem probe_registration (p : ProbeEnv) (g : Globals) (n : Notifiers)
    (hc : required_config_present p) :
    exynos_reboot_probe p g n =
      if p.register_reboot_notifier ≠ 0 then
        ⟨p.register_reboot_notifier, probed_globals p, n,
          probed_calls p ++
            [Call.dev_err (LogLine.cannot_register_reboot_handler p.register_reboot_notifier)]⟩
      else if p.register_restart_handler ≠ 0 then
        ⟨p.register_restart_handler, probed_globals p,
          ⟨false, n.restart_nb_registered⟩,
          probed_calls p ++ [Call.register_restart_handler notifier_block.exynos_restart_nb] ++
            [Call.dev_err (LogLine.cannot_register_restart_handler p.register_restart_handler),
             Call.unregister_reboot_notifier notifier_block.exynos_reboot_nb]⟩
      else
        ⟨0, probed_globals p, ⟨true, true⟩,
          probed_calls p ++ [Call.register_restart_handler notifier_block.exynos_restart_nb] ++
            [Call.dev_info LogLine.register_restart_handler_successfully]⟩ := by
  obtain ⟨⟨h1, h2, h3⟩, hm⟩ := hc
  simp only [required_property_missing, property_missing, not_or] at hm
  obtain ⟨k1, k2, k3, k4⟩ := hm
  have h3n : ¬ p.of_address_to_resource.1 ≠ 0 := by simp [h3]
  unfold exynos_reboot_probe
  dsimp only
  rw [if_neg (by simp [h1]), if_neg h2, if_neg h3n, if_neg k1, if_neg k2, if_neg k3, if_neg k4]
  rfl

theorem probed_calls_registration (p : ProbeEnv) :
    (probed_calls p).filter Call.isNotifierCall =
      [Call.register_reboot_notifier notifier_block.exynos_reboot_nb] := by
  unfold probed_calls
  split_ifs <;> rfl

theorem probe_outcome (p : ProbeEnv) (g : Globals) :
    ((exynos_reboot_probe p g Notifiers.none).ret ≠ 0 ∧
      (exynos_reboot_probe p g Notifiers.none).n = Notifiers.none ∧
      (required_property_missing p →
        (exynos_reboot_probe p g Notifiers.none).trace.filter Call.isRegistration = [])) ∨
    ((exynos_reboot_probe p g Notifiers.none).ret = 0 ∧
      (exynos_reboot_probe p g Notifiers.none).n = ⟨true, true⟩ ∧
      required_config_present p) := by
  by_cases h1 : IS_ERR p.syscon_regmap_lookup_by_phandle = true
  · rw [probe_is_err p g _ h1]
    exact Or.inl ⟨PTR_ERR_ne_zero _ h1, rfl, fun _ => rfl⟩
  have h1f : IS_ERR p.syscon_regmap_lookup_by_phandle = false := by simpa using h1
  by_cases h2 : p.of_parse_phandle.val = 0
  · rw [probe_no_node p g _ h1f h2]
    exact Or.inl ⟨(by decide : -EINVAL ≠ 0), rfl, fun _ => rfl⟩
  by_cases h3 : p.of_address_to_resource.1 ≠ 0
  · rw [probe_no_resource p g _ h1f h2 h3]
    exact Or.inl ⟨(by decide : -ENOMEM ≠ 0), rfl, fun _ => rfl⟩
  have hs : syscon_resolved p := ⟨h1f, h2, by simpa using h3⟩
  by_cases hm : required_property_missing p
  · obtain ⟨hr, hn, ht⟩ := probe_missing p g Notifiers.none hs hm
    exact Or.inl ⟨by rw [hr]; decide, hn, fun _ => ht⟩
  have hc : required_config_present p := ⟨hs, hm⟩
  rw [probe_registration p g _ hc]
  split_ifs with k1 k2
  · exact Or.inl ⟨k1, rfl, fun h => absurd h hm⟩
  · exact Or.inl ⟨k2, rfl, fun h => absurd h hm⟩
  · exact Or.inr ⟨rfl, rfl, hc⟩

theorem PTR_ERR_value (ptr : Fin (2 ^ 64)) (h : IS_ERR ptr = true) :
    int_of_long (PTR_ERR ptr) = (ptr.val : Int) - 2 ^ 64 ∧
    -4095 ≤ int_of_long (PTR_ERR ptr) ∧ int_of_long (PTR_ERR ptr) ≤ -1 := by
  have hlt := ptr.isLt
  simp only [IS_ERR, MAX_ERRNO, decide_eq_true_eq] at h
  unfold int_of_long PTR_ERR
  have h63 : 2 ^ 63 ≤ ptr.val := by omega
  rw [if_pos h63]
  omega

theorem probe_outcome_from (p : ProbeEnv) (g : Globals) (n : Notifiers) :
    ((exynos_reboot_probe p g n).ret ≠ 0 ∧
      ((exynos_reboot_probe p g n).n = n ∨
        (exynos_reboot_probe p g n).n = ⟨false, n.restart_nb_registered⟩)) ∨
    ((exynos_reboot_probe p g n).ret = 0 ∧ (exynos_reboot_probe p g n).n = ⟨true, true⟩) := by
  by_cases h1 : IS_ERR p.syscon_regmap_lookup_by_phandle = true
  · rw [probe_is_err p g _ h1]
    exact Or.inl ⟨PTR_ERR_ne_zero _ h1, Or.inl rfl⟩
  have h1f : IS_ERR p.syscon_regmap_lookup_by_phandle = false := by simpa using h1
  by_cases h2 : p.of_parse_phandle.val = 0
  · rw [probe_no_node p g _ h1f h2]
    exact Or.inl ⟨(by decide : -EINVAL ≠ 0), Or.inl rfl⟩
  by_cases h3 : p.of_address_to_resource.1 ≠ 0
  · rw [probe_no_resource p g _ h1f h2 h3]
    exact Or.inl ⟨(by decide : -ENOMEM ≠ 0), Or.inl rfl⟩
  have hs : syscon_resolved p := ⟨h1f, h2, by simpa using h3⟩
  by_cases hm : required_property_missing p
  · obtain ⟨hr, hn, _⟩ := probe_missing p g n hs hm
    exact Or.inl ⟨by rw [hr]; decide, Or.inl hn⟩
  have hc : required_config_present p := ⟨hs, hm⟩
  rw [probe_registration p g _ hc]
  split_ifs with k1 k2
  · exact Or.inl ⟨k1, Or.inl rfl⟩
  · exact Or.inl ⟨k2, Or.inr rfl⟩
  · exact Or.inr ⟨rfl, rfl⟩

/-! ## C8 -/

/-- C8 as stated fails: with `pshold-control-trigger` missing and the syscon regmap lookup
failing with `ERR_PTR(-19)`, `exynos_reboot_probe` returns -19, not `-EINVAL`. -/
theorem exynos_reboot_probe_missing_property_not_einval :
    required_property_missing probe_env_no_syscon ∧
    (exynos_reboot_probe probe_env_no_syscon Globals.zero Notifiers.none).ret = -19 ∧
    (exynos_reboot_probe probe_env_no_syscon Globals.zero Notifiers.none).ret ≠ -EINVAL := by
  refine ⟨by decide, ?_, ?_⟩
  · rw [probe_is_err _ _ _ (by decide)]; decide
  · rw [probe_is_err _ _ _ (by decide)]; decide

/-- C8, amended: setup is all-or-nothing, for a driver that has nothing registered when
`exynos_reboot_probe` starts. Whenever `exynos_reboot_probe` returns non-zero, neither
notifier block is registered at return. If one of the four required properties is missing
it returns an error without any registration call, and that error is `-EINVAL` once the
syscon regmap, node and base address have been obtained. If the restart handler cannot be
registered after the reboot notifier was, the reboot notifier is unregistered and the error
of the failed registration is returned. It returns 0 only with both registered. An earlier
failure returns its own code, with the one log line and no registration: `PTR_ERR` of the
pointer when the regmap lookup fails (the errno it encodes, between -4095 and -1), `-EINVAL`
when the syscon node is NULL, `-ENOMEM` when its base address cannot be obtained; a reboot
notifier that cannot be registered gives the error of that registration. From any start,
a failing probe leaves the restart handler as it was and does not leave the reboot notifier
registered unless it was before, and a probe that returns 0 leaves both registered. -/
theorem exynos_reboot_probe_all_or_nothing (p : ProbeEnv) (g : Globals) :
    ((exynos_reboot_probe p g Notifiers.none).ret ≠ 0 →
      (exynos_reboot_probe p g Notifiers.none).n = Notifiers.none) ∧
    (required_property_missing p →
      (exynos_reboot_probe p g Notifiers.none).ret ≠ 0 ∧
      (exynos_reboot_probe p g Notifiers.none).n = Notifiers.none ∧
      (exynos_reboot_probe p g Notifiers.none).trace.filter Call.isRegistration = []) ∧
    (syscon_resolved p → required_property_missing p →
      (exynos_reboot_probe p g Notifiers.none).ret = -EINVAL) ∧
    (required_config_present p → p.register_reboot_notifier = 0 →
      p.register_restart_handler ≠ 0 →
      (exynos_reboot_probe p g Notifiers.none).ret = p.register_restart_handler ∧
      (exynos_reboot_probe p g Notifiers.none).n = Notifiers.none ∧
      (exynos_reboot_probe p g Notifiers.none).trace.filter Call.isNotifierCall =
        [Call.register_reboot_notifier notifier_block.exynos_reboot_nb,
         Call.register_restart_handler notifier_block.exynos_restart_nb,
         Call.unregister_reboot_notifier notifier_block.exynos_reboot_nb]) ∧
    ((exynos_reboot_probe p g Notifiers.none).ret = 0 →
      (exynos_reboot_probe p g Notifiers.none).n = ⟨true, true⟩ ∧
      (exynos_reboot_probe p g Notifiers.none).n.reboot_nb_registered = true ∧
      (exynos_reboot_probe p g Notifiers.none).n.restart_nb_registered = true) ∧
    (IS_ERR p.syscon_regmap_lookup_by_phandle = true →
      (exynos_reboot_probe p g Notifiers.none).ret =
        int_of_long (PTR_ERR p.syscon_regmap_lookup_by_phandle) ∧
      (exynos_reboot_probe p g Notifiers.none).ret =
        (p.syscon_regmap_lookup_by_phandle.val : Int) - 2 ^ 64 ∧
      -4095 ≤ (exynos_reboot_probe p g Notifiers.none).ret ∧
      (exynos_reboot_probe p g Notifiers.none).ret ≤ -1 ∧
      (exynos_reboot_probe p g Notifiers.none).n = Notifiers.none ∧
      (exynos_reboot_probe p g Notifiers.none).trace =
        [Call.dev_err LogLine.fail_to_get_regmap]) ∧
    (IS_ERR p.syscon_regmap_lookup_by_phandle = false → p.of_parse_phandle.val = 0 →
      (exynos_reboot_probe p g Notifiers.none).ret = -EINVAL ∧
      (exynos_reboot_probe p g Notifiers.none).n = Notifiers.none ∧
      (exynos_reboot_probe p g Notifiers.none).trace =
        [Call.dev_err LogLine.syscon_node_not_found]) ∧
    (IS_ERR p.syscon_regmap_lookup_by_phandle = false → p.of_parse_phandle.val ≠ 0 →
      p.of_address_to_resource.1 ≠ 0 →
      (exynos_reboot_probe p g Notifiers.none).ret = -ENOMEM ∧
      (exynos_reboot_probe p g Notifiers.none).n = Notifiers.none ∧
      (exynos_reboot_probe p g Notifiers.none).trace =
        [Call.dev_err LogLine.failed_to_get_syscon_base]) ∧
    (required_config_present p → p.register_reboot_notifier ≠ 0 →
      (exynos_reboot_probe p g Notifiers.none).ret = p.register_reboot_notifier ∧
      (exynos_reboot_probe p g Notifiers.none).n = Notifiers.none ∧
      (exynos_reboot_probe p g Notifiers.none).trace.filter Call.isNotifierCall =
        [Call.register_reboot_notifier notifier_block.exynos_reboot_nb]) ∧
    (∀ n : Notifiers,
      ((exynos_reboot_probe p g n).ret ≠ 0 →
        (exynos_reboot_probe p g n).n.restart_nb_registered = n.restart_nb_registered ∧
        ((exynos_reboot_probe p g n).n.reboot_nb_registered = true →
          n.reboot_nb_registered = true)) ∧
      ((exynos_reboot_probe p g n).ret = 0 →
        (exynos_reboot_probe p g n).n = ⟨true, true⟩)) := by
  refine ⟨?_, ?_, ?_, ?_, ?_, ?_, ?_, ?_, ?_, ?_⟩
  · intro h
    rcases probe_outcome p g with ⟨_, hn, _⟩ | ⟨h0, _, _⟩
    · exact hn
    · exact absurd h0 h
  · intro hm
    rcases probe_outcome p g with ⟨hr, hn, ht⟩ | ⟨_, _, hc⟩
    · exact ⟨hr, hn, ht hm⟩
    · exact absurd hm hc.2
  · intro hs hm
    exact (probe_missing p g Notifiers.none hs hm).1
  · intro hc k1 k2
    rw [probe_registration p g _ hc, if_neg (by simp [k1]), if_pos k2]
    refine ⟨rfl, rfl, ?_⟩
    simp only [List.filter_append, probed_calls_registration]
    rfl
  · intro h0
    rcases probe_outcome p g with ⟨hr, _, _⟩ | ⟨_, hn, _⟩
    · exact absurd h0 hr
    · exact ⟨hn, by rw [hn], by rw [hn]⟩
  · intro h1
    rw [probe_is_err p g _ h1]
    have hv := PTR_ERR_value _ h1
    exact ⟨rfl, hv.1, hv.2.1, hv.2.2, rfl, rfl⟩
  · intro h1 h2
    rw [probe_no_node p g _ h1 h2]
    exact ⟨rfl, rfl, rfl⟩
  · intro h1 h2 h3
    rw [probe_no_resource p g _ h1 h2 h3]
    exact ⟨rfl, rfl, rfl⟩
  · intro hc k1
    rw [probe_registration p g _ hc, if_pos k1]
    refine ⟨rfl, rfl, ?_⟩
    simp only [List.filter_append, probed_calls_registration]
    rfl
  · intro n
    rcases probe_outcome_from p g n with ⟨hr, hn | hn⟩ | ⟨h0, hn⟩
    · exact ⟨fun _ => ⟨by rw [hn], fun h => by rwa [hn] at h⟩, fun h => absurd h hr⟩
    · exact ⟨fun _ => ⟨by rw [hn], fun h => by rw [hn] at h; cases h⟩,
        fun h => absurd h hr⟩
    · exact ⟨fun h => absurd h0 h, fun _ => hn⟩

/-- Instances of the amended C8: a missing `pshold-control-trigger` gives `-EINVAL` and no
registration; a refused restart handler leaves nothing registered, the reboot notifier
having been unregistered; a run without failure registers both; a failed regmap lookup
`ERR_PTR(-19)` gives -19, a NULL syscon node `-EINVAL`, a base address that cannot be
obtained `-ENOMEM`, a refused reboot notifier its error -17; and a failing probe of a
driver whose restart handler was registered leaves it registered. -/
theorem exynos_reboot_probe_all_or_nothing_witness :
    (exynos_reboot_probe probe_env_no_trigger Globals.zero Notifiers.none).ret = -EINVAL ∧
    (exynos_reboot_probe probe_env_no_trigger Globals.zero Notifiers.none).n =
      Notifiers.none ∧
    (exynos_reboot_probe probe_env_restart_refused Globals.zero Notifiers.none).n =
      Notifiers.none ∧
    (exynos_reboot_probe probe_env_ok Globals.zero Notifiers.none).n = ⟨true, true⟩ ∧
    (exynos_reboot_probe probe_env_regmap_err Globals.zero Notifiers.none).ret =
      ((2 ^ 64 - 19 : Nat) : Int) - 2 ^ 64 ∧
    (exynos_reboot_probe probe_env_no_node Globals.zero Notifiers.none).ret = -EINVAL ∧
    (exynos_reboot_probe probe_env_no_resource Globals.zero Notifiers.none).ret = -ENOMEM ∧
    (exynos_reboot_probe probe_env_reboot_refused Globals.zero Notifiers.none).ret = -17 ∧
    (exynos_reboot_probe probe_env_restart_refused Globals.zero
      notifiers_restart_only).n.restart_nb_registered = true :=
  ⟨(exynos_reboot_probe_all_or_nothing probe_env_no_trigger Globals.zero).2.2.1
      (by decide) (by decide),
   ((exynos_reboot_probe_all_or_nothing probe_env_no_trigger Globals.zero).2.1
      (by decide)).2.1,
   ((exynos_reboot_probe_all_or_nothing probe_env_restart_refused Globals.zero).2.2.2.1
      (by decide) (by decide) (by decide)).2.1,
   ((exynos_reboot_probe_all_or_nothing probe_env_ok Globals.zero).2.2.2.2.1 (by decide)).1,
   ((exynos_reboot_probe_all_or_nothing probe_env_regmap_err Globals.zero).2.2.2.2.2.1
      (by decide)).2.1,
   ((exynos_reboot_probe_all_or_nothing probe_env_no_node Globals.zero).2.2.2.2.2.2.1
      (by decide) (by decide)).1,
   ((exynos_reboot_probe_all_or_nothing probe_env_no_resource Globals.zero).2.2.2.2.2.2.2.1
      (by decide) (by decide) (by decide)).1,
   ((exynos_reboot_probe_all_or_nothing probe_env_reboot_refused
      Globals.zero).2.2.2.2.2.2.2.2.1 (by decide) (by decide)).1,
   (((exynos_reboot_probe_all_or_nothing probe_env_restart_refused
      Globals.zero).2.2.2.2.2.2.2.2.2 notifiers_restart_only).1 (by decide)).1⟩

/-! ## C9 -/

theorem probe_globals_of_config (p : ProbeEnv) (g : Globals) (n : Notifiers)
    (hc : required_config_present p) :
    (exynos_reboot_probe p g n).g = probed_globals p ∧
    ((exynos_reboot_probe p g n).ret = 0 ↔
      p.register_reboot_notifier = 0 ∧ p.register_restart_handler = 0) := by
  rw [probe_registration p g n hc]
  split_ifs with k1 k2
  · exact ⟨rfl, ⟨fun h => absurd h k1, fun h => absurd h.1 k1⟩⟩
  · exact ⟨rfl, ⟨fun h => absurd h k2, fun h => absurd h.2 k2⟩⟩
  · exact ⟨rfl, ⟨fun _ => ⟨by simpa using k1, by simpa using k2⟩, fun _ => rfl⟩⟩

/-- C9 as stated fails: with all required configuration present and `reboot-cmd-offset`
absent, `exynos_reboot_probe` still fails, with -17, when `register_reboot_notifier`
returns -17. -/
theorem exynos_reboot_probe_default_offset_yet_fails :
    required_config_present probe_env_reboot_refused ∧
    property_missing probe_env_reboot_refused "reboot-cmd-offset" ∧
    (exynos_reboot_probe probe_env_reboot_refused Globals.zero Notifiers.none).ret = -17 ∧
    (exynos_reboot_probe probe_env_reboot_refused Globals.zero Notifiers.none).ret ≠ 0 := by
  refine ⟨by decide, by decide, ?_, ?_⟩
  · rw [probe_registration _ _ _ (by decide)]; decide
  · rw [probe_registration _ _ _ (by decide)]; decide

/-- C9, amended: `reboot-cmd-offset` is optional with default 0x0810. With all required
configuration present, `exynos_reboot_probe` returns 0 exactly when both registrations
succeed, whether or not the property is there. When it is absent, `reboot_cmd_offset` is set
to 0x0810, so that `exynos_reboot_mode_set` then writes at the address
`pmu_alive_base + 0x0810` (the base address of the syscon node, a `phys_addr_t` sum), with
fallback offset 0x0810; when it is present, `reboot_cmd_offset` is the configured value. -/
theorem exynos_reboot_probe_cmd_offset_default (p : ProbeEnv) (g : Globals) (n : Notifiers)
    (hc : required_config_present p) :
    ((exynos_reboot_probe p g n).ret = 0 ↔
      p.register_reboot_notifier = 0 ∧ p.register_restart_handler = 0) ∧
    (exynos_reboot_probe p g n).g.pmu_alive_base = p.of_address_to_resource.2 ∧
    (property_missing p "reboot-cmd-offset" →
      (exynos_reboot_probe p g n).g.reboot_cmd_offset = 0x0810 ∧
      reboot_cmd_addr (exynos_reboot_probe p g n).g =
        (p.of_address_to_resource.2 + 0x0810) % 2 ^ 64 ∧
      ∀ (e : Env) (val : Nat),
        (exynos_reboot_mode_set e (exynos_reboot_probe p g n).g val).filter
            Call.isRegisterWrite =
          if e.set_priv_reg ((p.of_address_to_resource.2 + 0x0810) % 2 ^ 64) val ≠ 0 then
            [Call.set_priv_reg ((p.of_address_to_resource.2 + 0x0810) % 2 ^ 64) val,
             Call.regmap_write p.syscon_regmap_lookup_by_phandle.val 0x0810 val]
          else [Call.set_priv_reg ((p.of_address_to_resource.2 + 0x0810) % 2 ^ 64) val]) ∧
    (¬ property_missing p "reboot-cmd-offset" →
      (exynos_reboot_probe p g n).g.reboot_cmd_offset =
        (p.of_property_read_u32 "reboot-cmd-offset").2 ∧
      ∀ (e : Env) (val : Nat),
        (exynos_reboot_mode_set e (exynos_reboot_probe p g n).g val).filter
            Call.isRegisterWrite =
          if e.set_priv_reg ((p.of_address_to_resource.2 +
              (p.of_property_read_u32 "reboot-cmd-offset").2) % 2 ^ 64) val ≠ 0 then
            [Call.set_priv_reg ((p.of_address_to_resource.2 +
              (p.of_property_read_u32 "reboot-cmd-offset").2) % 2 ^ 64) val,
             Call.regmap_write p.syscon_regmap_lookup_by_phandle.val
              (p.of_property_read_u32 "reboot-cmd-offset").2 val]
          else [Call.set_priv_reg ((p.of_address_to_resource.2 +
              (p.of_property_read_u32 "reboot-cmd-offset").2) % 2 ^ 64) val]) := by
  obtain ⟨hg, hret⟩ := probe_globals_of_config p g n hc
  refine ⟨hret, by rw [hg]; rfl, ?_, ?_⟩
  · intro hm
    have hoff : (probed_globals p).reboot_cmd_offset = 0x0810 := by
      simp only [property_missing] at hm
      simp only [probed_globals, if_pos hm]
      rfl
    have haddr : reboot_cmd_addr (probed_globals p) =
        (p.of_address_to_resource.2 + 0x0810) % 2 ^ 64 := by
      unfold reboot_cmd_addr
      rw [hoff]
      rfl
    rw [hg]
    refine ⟨hoff, haddr, ?_⟩
    intro e val
    rw [mode_set_register_writes, haddr, hoff]
    rfl
  · intro hm
    have hoff : (probed_globals p).reboot_cmd_offset =
        (p.of_property_read_u32 "reboot-cmd-offset").2 := by
      simp only [property_missing] at hm
      simp only [probed_globals, if_neg hm]
    have haddr : reboot_cmd_addr (probed_globals p) =
        (p.of_address_to_resource.2 + (p.of_property_read_u32 "reboot-cmd-offset").2) %
          2 ^ 64 := by
      unfold reboot_cmd_addr
      rw [hoff]
      rfl
    rw [hg]
    refine ⟨hoff, ?_⟩
    intro e val
    rw [mode_set_register_writes, haddr, hoff]
    rfl

/-- Instances of the amended C9: without `reboot-cmd-offset` the probe succeeds, the offset
is 0x0810 and a refused privileged write at 0x15460810 falls back to offset 0x0810; with
`reboot-cmd-offset` set to 0x0814 the offset is 0x0814. -/
theorem exynos_reboot_probe_cmd_offset_default_witness :
    (exynos_reboot_probe probe_env_ok Globals.zero Notifiers.none).ret = 0 ∧
    (exynos_reboot_probe probe_env_ok Globals.zero Notifiers.none).g.reboot_cmd_offset =
      0x0810 ∧
    (exynos_reboot_mode_set env_refusing
        (exynos_reboot_probe probe_env_ok Globals.zero Notifiers.none).g 0xFF).filter
        Call.isRegisterWrite =
      [Call.set_priv_reg 0x15460810 0xFF, Call.regmap_write 0xffffff8012345000 0x0810 0xFF] ∧
    (exynos_reboot_probe probe_env_cmd_offset Globals.zero Notifiers.none).g.reboot_cmd_offset =
      0x0814 :=
  ⟨(exynos_reboot_probe_cmd_offset_default probe_env_ok Globals.zero Notifiers.none
      (by decide)).1.mpr (by decide),
   ((exynos_reboot_probe_cmd_offset_default probe_env_ok Globals.zero Notifiers.none
      (by decide)).2.2.1 (by decide)).1,
   ((exynos_reboot_probe_cmd_offset_default probe_env_ok Globals.zero Notifiers.none
      (by decide)).2.2.1 (by decide)).2.2 env_refusing 0xFF,
   ((exynos_reboot_probe_cmd_offset_default probe_env_cmd_offset Globals.zero Notifiers.none
      (by decide)).2.2.2 (by decide)).1⟩

end ExynosReboot
